import Mathlib

/-!
# SmartRural Irrigation System: decision and control engine

A shallow embedding of the control core of `src/main.c` (tank model, water
budgeting, pump controller, alert manager, history buffer, daily usage
tracker) together with theorems about it.

Conventions of the embedding

* `float` and `double` values are exact rationals (`ℚ`): every finite float is
  a rational, the rounding of the individual operations is not modelled.
* `unsigned long` is 32 bits wide on the target; values are naturals and the
  subtraction wraps modulo `2^32` (`usub`).
* The global variables of the sketch are the fields of `State`; every function
  of the sketch is a function `State → State`.
* `millis()` is an input: every call of `millis()` that a function makes is a
  parameter of its model, given as the uptime in milliseconds at that moment
  (an unbounded natural); the code sees `millis t = t % 2^32`.
* Fixed-size arrays are total functions from the index; only the indices the
  source can address are ever read or written.
-/

namespace SRIS

/-! ## Configuration constants -/

/-- `#define RELAY_ACTIVE_STATE HIGH` -/
def RELAY_ACTIVE_STATE : Bool := true

/-- `#define TANK_MAX_CAPACITY 0.500` (litres). -/
def TANK_MAX_CAPACITY : ℚ := 0.500

/-- `#define TANK_HEIGHT 12.0` (cm). -/
def TANK_HEIGHT : ℚ := 12.0

/-- `#define SENSOR_TO_FULL 2.0` (cm). -/
def SENSOR_TO_FULL : ℚ := 2.0

/-- `#define SENSOR_TO_EMPTY (SENSOR_TO_FULL + TANK_HEIGHT)` -/
def SENSOR_TO_EMPTY : ℚ := SENSOR_TO_FULL + TANK_HEIGHT

/-- `#define TANK_R_BOTTOM 3.0` (cm). -/
def TANK_R_BOTTOM : ℚ := 3.0

/-- `#define TANK_R_TOP 4.0` (cm). -/
def TANK_R_TOP : ℚ := 4.0

/-- `#define PUMP_FLOW_RATE 0.1667` (litres per second). -/
def PUMP_FLOW_RATE : ℚ := 0.1667

/-- `#define MANUAL_IRRIGATION_DURATION_S 3600` -/
def MANUAL_IRRIGATION_DURATION_S : ℚ := 3600

/-- `const unsigned long HISTORY_UPDATE_INTERVAL = 3600000;` -/
def HISTORY_UPDATE_INTERVAL : Nat := 3600000

/-- `const unsigned long ALERT_THROTTLE_MS = 30000;` -/
def ALERT_THROTTLE_MS : Nat := 30000

/-! ## Platform primitives -/

/-- Number of values of a 32-bit `unsigned long`. -/
def ULONG_RANGE : Nat := 4294967296

/-- The value `millis()` returns at uptime `t` milliseconds. -/
def millis (t : Nat) : Nat := t % ULONG_RANGE

/-- Subtraction of two `unsigned long` values, wrapping modulo `2^32`. -/
def usub (a b : Nat) : Nat := (a % ULONG_RANGE + ULONG_RANGE - b % ULONG_RANGE) % ULONG_RANGE

/-- Modelled from the spec: the Arduino core macro `constrain(amt, low, high)`
is not part of the source; it is the clamp of the spec,
`amt < low ? low : (amt > high ? high : amt)`. -/
def constrain (amt low high : ℚ) : ℚ :=
  if amt < low then low else if amt > high then high else amt

/-- The `constrain` macro at type `int`. -/
def constrainInt (amt low high : Int) : Int :=
  if amt < low then low else if amt > high then high else amt

/-- Modelled from the spec: the Arduino core function `map` is not part of the
source; it is the integer linear rescaling
`(x - in_min) * (out_max - out_min) / (in_max - in_min) + out_min`
with C division (rounding toward zero). -/
def map (x in_min in_max out_min out_max : Int) : Int :=
  ((x - in_min) * (out_max - out_min)).tdiv (in_max - in_min) + out_min

/-- The C conversion `(int)x` of a floating value: rounding toward zero. -/
def truncToInt (x : ℚ) : Int := if 0 ≤ x then ⌊x⌋ else ⌈x⌉

/-- The C conversion `(unsigned long)x` of a floating value: rounding toward
zero, for the non-negative values the sketch converts. -/
def toULong (x : ℚ) : Nat := (⌊x⌋).toNat % ULONG_RANGE

/-! ## Global state -/

/-- The fields of `struct FarmerProfile` that the control core reads. -/
structure FarmerProfile where
  landSize : ℚ
  cropType : String
  soilType : String

/-- The global variables of the sketch. `pumpPin` is the level last written to
`PUMP_PIN`; `telegramOutbox` collects the `(chat_id, text)` pairs handed to
`bot.sendMessage` by `sendAlert`, newest first. -/
structure State where
  lastHistoryUpdate : Nat
  lastAlertTime : Nat
  temperature : ℚ
  humidity : ℚ
  soilMoisturePercent : Int
  distance : ℚ
  tankLevelLiters : ℚ
  tankLevelPercent : ℚ
  farmEfficiencyScore : ℚ
  predictedWaterNeedLiters : ℚ
  pumpState : Bool
  autoMode : Bool
  irrigationStartTime : Nat
  irrigationDurationS : ℚ
  totalWaterUsed : ℚ
  dailyWaterUsed : ℚ
  lastAlert : String
  alertHistory : Nat → String
  alertHistoryCount : Nat
  TELEGRAM_CHAT_ID : String
  rain1h_mm : ℚ
  rainProb_percent : ℚ
  lastDay : Int
  aiRecommendation : String
  fertilizerRecommendation : String
  daysTankLasts : Int
  tripleHistory : Nat → ℚ
  historyIndex : Nat
  farmerProfile : FarmerProfile
  pumpPin : Bool
  telegramOutbox : List (String × String)

/-- `String alertHistory[5] = {"System Initialized."};` -/
def initialAlertHistory : Nat → String :=
  fun i => if i = 0 then "System Initialized." else ""

/-- The initialisers of the global variables. `temperature` and `humidity` are
`NAN` in the source until the first `readAllSensors` of `setup()` replaces
them; they are `0` here. -/
def initialState : State where
  lastHistoryUpdate := 0
  lastAlertTime := 0
  temperature := 0
  humidity := 0
  soilMoisturePercent := -1
  distance := -1
  tankLevelLiters := 0.0
  tankLevelPercent := 0.0
  farmEfficiencyScore := 0.0
  predictedWaterNeedLiters := 0.0
  pumpState := false
  autoMode := true
  irrigationStartTime := 0
  irrigationDurationS := 0.0
  totalWaterUsed := 0.0
  dailyWaterUsed := 0.0
  lastAlert := ""
  alertHistory := initialAlertHistory
  alertHistoryCount := 1
  TELEGRAM_CHAT_ID := ""
  rain1h_mm := 0.0
  rainProb_percent := 0.0
  lastDay := -1
  aiRecommendation := "System booting..."
  fertilizerRecommendation := "Checking..."
  daysTankLasts := 0
  tripleHistory := fun _ => 0
  historyIndex := 0
  farmerProfile := ⟨1.0, "Maize", "Red"⟩
  pumpPin := !RELAY_ACTIVE_STATE
  telegramOutbox := []

/-! ## Tank geometry -/

/-- `float calculateConicalTankLevel(float dist_cm)`. The Arduino constant
`PI` is not part of the source and is the parameter `pi`. -/
def calculateConicalTankLevel (pi : ℚ) (dist_cm : ℚ) : ℚ :=
  let h_water := SENSOR_TO_EMPTY - dist_cm
  let h_water := constrain h_water 0.0 TANK_HEIGHT
  if h_water ≤ 0 then 0.0
  else
    let H := TANK_HEIGHT
    let r_h := TANK_R_BOTTOM + (TANK_R_TOP - TANK_R_BOTTOM) * (h_water / H)
    let volume_cm3 := (pi / 3.0) * h_water *
      (TANK_R_BOTTOM * TANK_R_BOTTOM + TANK_R_BOTTOM * r_h + r_h * r_h)
    volume_cm3 / 1000.0

/-- The value `readAllSensors` assigns to `tankLevelPercent`:
`(tankLevelLiters / TANK_MAX_CAPACITY) * 100.0`, then `constrain(…, 0, 100)`. -/
def tankPercent (liters : ℚ) : ℚ :=
  constrain ((liters / TANK_MAX_CAPACITY) * 100.0) 0 100

/-! ## Alert system -/

/-- The two `millis()` readings of one `sendAlert` call: the one of the
throttle test and the one stored in `lastAlertTime`. -/
structure AlertClock where
  tCheck : Nat
  tStamp : Nat

/-- The loop `for (int i = alertHistoryCount; i > 0; i--) if (i < 5)
alertHistory[i] = alertHistory[i-1];` entered with loop variable `i`. -/
def shiftAlerts : Nat → (Nat → String) → (Nat → String)
  | 0, hist => hist
  | i + 1, hist =>
      shiftAlerts i (if i + 1 < 5 then Function.update hist (i + 1) (hist i) else hist)

/-- `void sendAlert(String title, String message)`. -/
def sendAlert (c : AlertClock) (title message : String) (s : State) : State :=
  if usub (millis c.tCheck) s.lastAlertTime < ALERT_THROTTLE_MS then s
  else
    let newAlert := title ++ ": " ++ message
    let hist := shiftAlerts s.alertHistoryCount s.alertHistory
    { s with
      lastAlert := newAlert
      lastAlertTime := millis c.tStamp
      alertHistory := Function.update hist 0 newAlert
      alertHistoryCount :=
        if s.alertHistoryCount < 5 then s.alertHistoryCount + 1 else s.alertHistoryCount
      telegramOutbox :=
        if s.TELEGRAM_CHAT_ID.length > 0 then
          (s.TELEGRAM_CHAT_ID, "üö® " ++ newAlert) :: s.telegramOutbox
        else s.telegramOutbox }

/-! ## Fertilizer recommendation -/

/-- `void getFertilizerRecommendation()`. -/
def getFertilizerRecommendation (s : State) : State :=
  let temp := truncToInt s.temperature
  let hum := truncToInt s.humidity
  let soil := s.soilMoisturePercent
  if soil < 35 then
    { s with fertilizerRecommendation := "Urgent Water needed. Apply N (Urea) post-watering." }
  else if soil ≥ 35 ∧ soil ≤ 60 ∧ temp > 20 ∧ temp < 35 then
    if s.farmerProfile.soilType = "Sandy" then
      { s with fertilizerRecommendation := "Light N (Urea) dose. Sandy soil leaks." }
    else
      { s with fertilizerRecommendation := "Moderate NPK (20-10-10) for growth." }
  else if temp ≥ 35 ∧ hum < 50 then
    { s with fertilizerRecommendation :=
        "P/K Focus: Apply DAP (Phosphorus) for stress resistance." }
  else if soil > 70 ∨ hum > 80 then
    { s with fertilizerRecommendation :=
        "High Moisture Risk! Reduce watering. Use Compost/Fungicide." }
  else
    { s with fertilizerRecommendation := "Optimal conditions. Maintenance NPK (15-15-15)." }

/-! ## Water budgeting -/

/-- The block `Determine base crop need and target moisture` of
`ai_water_budgeting`: the values it assigns to the locals
`baseWaterNeedLiters` and `targetMoistureMin`. -/
def cropNeed (p : FarmerProfile) : ℚ × Int :=
  if p.cropType = "Maize" then (25000.0 * p.landSize, 50)
  else (20000.0 * p.landSize, 50)

/-- The part of `ai_water_budgeting` up to and including the duration
recommendation computed from the moisture deficit (before the block
`RAIN PREDICTION FACTOR`). -/
def ai_water_budgeting_deficit (s : State) : State :=
  let evaporationFactor : ℚ :=
    if s.temperature > 35.0 ∧ s.humidity < 40.0 then 1.25
    else if s.temperature < 20.0 ∨ s.humidity > 70.0 then 0.90
    else 1.0
  let soilFactor : ℚ :=
    if s.farmerProfile.soilType = "Red" ∨ s.farmerProfile.soilType = "Sandy" then 1.15
    else 0.85
  let targetMoistureMin : Int := (cropNeed s.farmerProfile).2
  let s := { s with predictedWaterNeedLiters := 0.5 * evaporationFactor * soilFactor }
  let moistureDeficit : ℚ := (targetMoistureMin : ℚ) - (s.soilMoisturePercent : ℚ)
  if moistureDeficit > 5.0 then
    let requiredWaterLiters := moistureDeficit * 0.01
    let d := constrain (requiredWaterLiters / PUMP_FLOW_RATE) 5.0 60.0
    { s with
      irrigationDurationS := d
      aiRecommendation := "Run pump for " ++ toString (truncToInt d) ++ " seconds." }
  else
    { s with
      irrigationDurationS := 0.0
      aiRecommendation :=
        "Soil optimal, irrigation paused. Target: " ++ toString targetMoistureMin ++ "%" }

/-- The block `RAIN PREDICTION FACTOR` of `ai_water_budgeting`. -/
def ai_water_budgeting_rain (c : AlertClock) (s : State) : State :=
  if s.rain1h_mm > 0.5 ∨ s.rainProb_percent > 75.0 then
    let s :=
      if s.soilMoisturePercent < 45 ∧ s.irrigationDurationS > 0 then
        let d := s.irrigationDurationS * 0.5
        { s with
          irrigationDurationS := d
          aiRecommendation :=
            "Rain expected, reduced irrigation to " ++ toString (truncToInt d) ++ "s." }
      else
        { s with
          aiRecommendation := "Rain expected, irrigation paused."
          irrigationDurationS := 0.0 }
    sendAlert c "üåß Rain Predicted"
      "Irrigation adjusted/paused due to weather forecast." s
  else s

/-- `void ai_water_budgeting()`. The local `baseWaterNeedLiters`, the first
component of `cropNeed`, is assigned and never read. -/
def ai_water_budgeting (c : AlertClock) (s : State) : State :=
  let targetMoistureMin : Int := (cropNeed s.farmerProfile).2
  let s := ai_water_budgeting_deficit s
  let s := ai_water_budgeting_rain c s
  let s := { s with
    farmEfficiencyScore :=
      constrain (100.0 - ((|s.soilMoisturePercent - targetMoistureMin| : Int) : ℚ) * 2.0)
        0.0 100.0 }
  if s.predictedWaterNeedLiters > 0.001 then
    { s with daysTankLasts := truncToInt (s.tankLevelLiters / s.predictedWaterNeedLiters) }
  else
    { s with daysTankLasts := 999 }

/-! ## Sensor reading -/

/-- What the peripherals deliver to one `readAllSensors` call: the two DHT
readings (`none` for `NAN`), the raw ADC value of the soil probe and the echo
pulse length returned by `pulseIn` (`0` on timeout). -/
structure SensorInput where
  dhtTemperature : Option ℚ
  dhtHumidity : Option ℚ
  soilRawValue : Int
  duration : Int

/-- `void readAllSensors()`. -/
def readAllSensors (pi : ℚ) (i : SensorInput) (c : AlertClock) (s : State) : State :=
  let soil := map i.soilRawValue 4095 0 0 100
  let distance : ℚ := (i.duration : ℚ) * 0.0343 / 2
  let liters := calculateConicalTankLevel pi distance
  let s := { s with
    temperature := i.dhtTemperature.getD 0.0
    humidity := i.dhtHumidity.getD 0.0
    soilMoisturePercent := constrainInt soil 0 100
    distance := distance
    tankLevelLiters := liters
    tankLevelPercent := tankPercent liters }
  getFertilizerRecommendation (ai_water_budgeting c s)

/-! ## Irrigation control -/

/-- `void startPump(unsigned long duration)`. `tStart` is the `millis()`
reading stored as start time, `c` holds the readings of the `sendAlert` call
of the low-tank branch. -/
def startPump (tStart : Nat) (c : AlertClock) (duration : Nat) (s : State) : State :=
  if s.tankLevelLiters < 0.10 * TANK_MAX_CAPACITY then
    sendAlert c "‚ö† Cannot Start Pump" "Tank level too low for irrigation." s
  else
    { s with
      pumpPin := RELAY_ACTIVE_STATE
      pumpState := true
      irrigationStartTime := millis tStart
      irrigationDurationS :=
        if duration > 0 then (duration : ℚ) / 1000.0 else MANUAL_IRRIGATION_DURATION_S }

/-- `void stopPump()`; `tStop` is its `millis()` reading. -/
def stopPump (tStop : Nat) (s : State) : State :=
  if !s.pumpState then s
  else
    let s := { s with pumpPin := !RELAY_ACTIVE_STATE, pumpState := false }
    let s :=
      if s.irrigationStartTime > 0 then
        let run_time_ms := usub (millis tStop) s.irrigationStartTime
        let water_used_liters : ℚ := (run_time_ms : ℚ) / 1000.0 * PUMP_FLOW_RATE
        let liters := constrain (s.tankLevelLiters - water_used_liters) 0.0 TANK_MAX_CAPACITY
        { s with
          totalWaterUsed := s.totalWaterUsed + water_used_liters
          dailyWaterUsed := s.dailyWaterUsed + water_used_liters
          tankLevelLiters := liters
          tankLevelPercent := (liters / TANK_MAX_CAPACITY) * 100.0 }
      else s
    { s with irrigationStartTime := 0 }

/-- The `millis()` readings one `controlIrrigation` call can make: `tRun` for
`currentRunTime`, `tStop` inside `stopPump`, `tStart` and `startAlert` inside
`startPump`, and `alert` for the `sendAlert` call of `controlIrrigation`
itself. -/
structure IrrigationClock where
  tRun : Nat
  tStop : Nat
  tStart : Nat
  startAlert : AlertClock
  alert : AlertClock

/-- `void controlIrrigation()`. -/
def controlIrrigation (c : IrrigationClock) (s : State) : State :=
  if s.pumpState ∧ s.tankLevelLiters < 0.05 * TANK_MAX_CAPACITY then
    sendAlert c.alert "‚ö† EMERGENCY STOP" "Tank almost empty!" (stopPump c.tStop s)
  else if s.pumpState then
    let currentRunTime := usub (millis c.tRun) s.irrigationStartTime
    if currentRunTime ≥ toULong (s.irrigationDurationS * 1000.0) then
      sendAlert c.alert "‚èπ Irrigation Stopped (Time)" "Duration complete."
        (stopPump c.tStop s)
    else s
  else if !s.autoMode then s
  else if s.irrigationDurationS > 0.0 ∧ !s.pumpState then
    let s1 := startPump c.tStart c.startAlert (toULong (s.irrigationDurationS * 1000.0)) s
    sendAlert c.alert "üå± Irrigation Started (AI)"
      ("Running for " ++ toString (truncToInt s1.irrigationDurationS) ++ "s. Soil: " ++
        toString s1.soilMoisturePercent ++ "%") s1
  else s

/-! ## History buffer and daily reset -/

/-- `void updateHistoricalData()`; `tCheck` is the `millis()` reading of the
interval test, `tStamp` the one stored in `lastHistoryUpdate`. -/
def updateHistoricalData (tCheck tStamp : Nat) (s : State) : State :=
  if usub (millis tCheck) s.lastHistoryUpdate ≥ HISTORY_UPDATE_INTERVAL then
    let historyIndex := (s.historyIndex + 1) % 24
    let baseIndex := historyIndex * 3
    let h := Function.update s.tripleHistory baseIndex (s.soilMoisturePercent : ℚ)
    let h := Function.update h (baseIndex + 1) s.temperature
    let h := Function.update h (baseIndex + 2) s.humidity
    { s with historyIndex := historyIndex, tripleHistory := h, lastHistoryUpdate := millis tStamp }
  else s

/-- The `tripleHistory` JSON array built by `handleAPIData`: for `h = 0..23`
the three values of slot `(historyIndex + h) % 24`. -/
def handleAPIData_tripleHistory (s : State) : List ℚ :=
  (List.range 24).flatMap fun h =>
    let i := (s.historyIndex + h) % 24
    let baseIndex := i * 3
    [s.tripleHistory baseIndex, s.tripleHistory (baseIndex + 1), s.tripleHistory (baseIndex + 2)]

/-- `void checkAndResetDailyUsage()`; `wifiConnected` is
`WiFi.status() == WL_CONNECTED` and `tm_mday` the day of month of the local
time. -/
def checkAndResetDailyUsage (wifiConnected : Bool) (tm_mday : Int) (s : State) : State :=
  if !wifiConnected then s
  else if s.lastDay = -1 ∨ tm_mday ≠ s.lastDay then
    let s := if s.lastDay ≠ -1 then { s with dailyWaterUsed := 0.0 } else s
    { s with lastDay := tm_mday }
  else s

/-! ## Manual commands -/

/-- `void handleAPIPumpOn()`, and the `/pumpon` branch of `handleNewMessages`,
which change the state in the same way. -/
def handleAPIPumpOn (tStart : Nat) (c : AlertClock) (s : State) : State :=
  if s.tankLevelPercent < 10 then s
  else startPump tStart c 0 { s with autoMode := false }

/-- `void handleAPIPumpOff()`, and the `/pumpoff` branch of `handleNewMessages`. -/
def handleAPIPumpOff (tStop : Nat) (s : State) : State :=
  stopPump tStop s

/-- `void handleAPIAuto()`. -/
def handleAPIAuto (tStop : Nat) (s : State) : State :=
  let s := { s with autoMode := !s.autoMode }
  if !s.autoMode ∧ s.pumpState then stopPump tStop s else s


/-! ## Scenarios and traces used by the theorems -/

/-- Modelled from the spec: the Arduino core constant `PI` (the π of the
frustum volume formula) is not part of the source; this is the decimal literal
the core defines it as. The theorems take π as a parameter, `PI` instantiates
them. -/
def PI : ℚ := 3.1415926535897932384626433832795

/-- One `sendAlert` call: its clock readings and arguments. -/
structure AlertCall where
  clock : AlertClock
  title : String
  message : String

/-- The combined text `title + ": " + message` that `sendAlert` records. -/
def AlertCall.text (a : AlertCall) : String := a.title ++ ": " ++ a.message

/-- A sequence of `sendAlert` calls, executed in order. -/
def sendAlerts : List AlertCall → State → State
  | [], s => s
  | a :: rest, s => sendAlerts rest (sendAlert a.clock a.title a.message s)

/-- The calls of a sequence that pass the throttle test of `sendAlert` when the
sequence is executed from state `s`, in call order. -/
def acceptedAlerts : List AlertCall → State → List AlertCall
  | [], _ => []
  | a :: rest, s =>
      if usub (millis a.clock.tCheck) s.lastAlertTime < ALERT_THROTTLE_MS then
        acceptedAlerts rest (sendAlert a.clock a.title a.message s)
      else a :: acceptedAlerts rest (sendAlert a.clock a.title a.message s)

/-- The clock readings of a sequence of calls, in the order they are taken. -/
def clockReadings (calls : List AlertCall) : List Nat :=
  calls.flatMap fun a => [a.clock.tCheck, a.clock.tStamp]

/-- A state in which a manual start is accepted: the initial state after a
sensor tick that found 0.4 L in the tank and soil moisture 55 %. -/
def manualRunReady : State :=
  { initialState with
    tankLevelLiters := 0.4, tankLevelPercent := 80, soilMoisturePercent := 55,
    temperature := 28, humidity := 55 }

/-- A state with soil moisture 40 % and 1.0 mm of rain forecast. -/
def rainHalvedInput : State :=
  { initialState with soilMoisturePercent := 40, rain1h_mm := 1.0 }

/-- The `j`-th hourly history update, taken when the sensors read
soil = temperature = humidity = `j`. -/
def recordSample (s : State) (j : Nat) : State :=
  updateHistoricalData (j * HISTORY_UPDATE_INTERVAL) (j * HISTORY_UPDATE_INTERVAL)
    { s with soilMoisturePercent := j, temperature := j, humidity := j }

/-- The state after the history updates `1, …, n` from the initial state. -/
def sequentialSamples (n : Nat) : State :=
  (List.range' 1 n).foldl recordSample initialState

/-- A manual run (planned 3600 s, started at uptime 100 s) whose tank has
dropped to 0.01 L. -/
def emergencyInput : State :=
  { initialState with
    pumpState := true, autoMode := false, irrigationStartTime := 100000,
    irrigationDurationS := 3600, tankLevelLiters := 0.01, tankLevelPercent := 2 }

/-- Three alerts raised at uptimes 40 s, 50 s and 71 s. -/
def sampleAlertCalls : List AlertCall :=
  [⟨⟨40000, 40001⟩, "First", "accepted"⟩, ⟨⟨50000, 50001⟩, "Second", "throttled"⟩,
    ⟨⟨71000, 71001⟩, "Third", "accepted"⟩]

/-- One history tick: the sensor values at that moment and the two `millis()`
readings of the `updateHistoricalData` call. -/
structure HistoryTick where
  soil : Int
  temperature : ℚ
  humidity : ℚ
  tCheck : Nat
  tStamp : Nat

/-- The state after the history ticks `tick 1, …, tick n` from state `s0`: before
each `updateHistoricalData` call the sensor fields hold the values of the tick. -/
def historyAfter (s0 : State) (tick : Nat → HistoryTick) : Nat → State
  | 0 => s0
  | n + 1 =>
      updateHistoricalData (tick (n + 1)).tCheck (tick (n + 1)).tStamp
        { historyAfter s0 tick n with
          soilMoisturePercent := (tick (n + 1)).soil
          temperature := (tick (n + 1)).temperature
          humidity := (tick (n + 1)).humidity }

/-- The `updateHistoricalData` call of tick `m + 1` finds the interval elapsed. -/
def tickDue (s0 : State) (tick : Nat → HistoryTick) (m : Nat) : Prop :=
  HISTORY_UPDATE_INTERVAL ≤
    usub (millis (tick (m + 1)).tCheck) (historyAfter s0 tick m).lastHistoryUpdate

/-- Slot `p` of the history buffer holds the sample of tick `x`. -/
def slotHolds (s : State) (p : Nat) (x : HistoryTick) : Prop :=
  s.tripleHistory (p * 3) = (x.soil : ℚ) ∧
  s.tripleHistory (p * 3 + 1) = x.temperature ∧
  s.tripleHistory (p * 3 + 2) = x.humidity

/-- Hourly ticks whose `j`-th sample is soil = temperature = humidity = `j`. -/
def hourlyTick (j : Nat) : HistoryTick :=
  ⟨j, j, j, j * HISTORY_UPDATE_INTERVAL, j * HISTORY_UPDATE_INTERVAL⟩

/-- A state that last observed day 14 and has used 1.5 L today. -/
def dayChangeInput : State :=
  { initialState with lastDay := 14, dailyWaterUsed := 1.5, totalWaterUsed := 4 }

/-- A state with soil moisture 50 %, humidity 50 % and the temperature 20.5 °C. -/
def mildTemperatureInput : State :=
  { initialState with soilMoisturePercent := 50, temperature := 20.5, humidity := 50 }

/-- A state with soil moisture 50 %, temperature 25 °C, humidity 50 % and the
soil type "Red" of the default profile. -/
def redSoilInput : State :=
  { initialState with soilMoisturePercent := 50, temperature := 25, humidity := 50 }

/-- The state of the first scenario of the spec: soil 30 %, 25 °C, humidity
50 %, 0.4 L in the tank, no rain forecast. -/
def drySoilInput : State :=
  { initialState with
    soilMoisturePercent := 30, temperature := 25, humidity := 50,
    tankLevelLiters := 0.4, tankLevelPercent := 80 }

/-- A state with soil moisture 80 %, 36 °C and humidity 40 %, in which the
conditions of fertilizer rules 3 and 4 both hold. -/
def hotWetInput : State :=
  { initialState with soilMoisturePercent := 80, temperature := 36, humidity := 40 }

/-- The condition of rule `r` of the fertilizer rule table, in the words of the
spec, for whole-number readings. Rule 5 is the default. -/
def fertilizerRuleHolds (soil temp hum : Int) (r : Nat) : Bool :=
  match r with
  | 1 => decide (soil < 35)
  | 2 => decide (35 ≤ soil ∧ soil ≤ 60 ∧ 20 < temp ∧ temp < 35)
  | 3 => decide (temp ≥ 35 ∧ hum < 50)
  | 4 => decide (soil > 70 ∨ hum > 80)
  | _ => true

/-- The first rule, in the fixed order 1..5, whose condition holds. -/
def firstFertilizerRule (soil temp hum : Int) : Nat :=
  ([1, 2, 3, 4, 5].find? (fertilizerRuleHolds soil temp hum)).getD 5

/-- The advisory texts of rule `r`; rule 2 has one text per soil category. -/
def fertilizerAdvisories (r : Nat) : List String :=
  match r with
  | 1 => ["Urgent Water needed. Apply N (Urea) post-watering."]
  | 2 => ["Light N (Urea) dose. Sandy soil leaks.", "Moderate NPK (20-10-10) for growth."]
  | 3 => ["P/K Focus: Apply DAP (Phosphorus) for stress resistance."]
  | 4 => ["High Moisture Risk! Reduce watering. Use Compost/Fungicide."]
  | _ => ["Optimal conditions. Maintenance NPK (15-15-15)."]

/-- The state of the rain scenario of the spec: soil 40 %, 1.0 mm of rain, and a
previously computed duration of 40 s. -/
def rainScenarioInput : State :=
  { initialState with soilMoisturePercent := 40, rain1h_mm := 1.0, irrigationDurationS := 40 }

/-- A pump session started at `millis() = 100000` with 0.4 L in the tank. -/
def runningInput : State :=
  { initialState with
    pumpState := true, pumpPin := RELAY_ACTIVE_STATE, irrigationStartTime := 100000,
    irrigationDurationS := 5, tankLevelLiters := 0.4, tankLevelPercent := 80 }

/-- A state with the pump off, auto mode on, 0.4 L in the tank and a decision
duration of 5 s. -/
def autoStartInput : State :=
  { drySoilInput with irrigationDurationS := 5 }

/-- A state with 0.5 L in the tank, 15 °C and the soil type "Clay". -/
def coolClayInput : State :=
  { initialState with
    tankLevelLiters := 0.5, tankLevelPercent := 100, temperature := 15, humidity := 50,
    soilMoisturePercent := 55, farmerProfile := ⟨1.0, "Maize", "Clay"⟩ }

/-- Two alerts raised at uptimes 1 s and 29.999 s. -/
def earlyAlertCalls : List AlertCall :=
  [⟨⟨1000, 1001⟩, "Early", "first"⟩, ⟨⟨29999, 30000⟩, "Early", "second"⟩]

/-! # Theorems -/

/-! ## Crop need -/

theorem cropNeed_snd (p : FarmerProfile) : (cropNeed p).2 = 50 := by
  unfold cropNeed
  split_ifs <;> rfl

/-! ## Clamp and clock arithmetic -/

theorem constrain_mem (x lo hi : ℚ) (h : lo ≤ hi) :
    lo ≤ constrain x lo hi ∧ constrain x lo hi ≤ hi := by
  unfold constrain
  split_ifs with h1 h2
  · exact ⟨le_refl _, h⟩
  · exact ⟨h, le_refl _⟩
  · exact ⟨not_lt.mp h1, not_lt.mp h2⟩

theorem constrain_mono (x y lo hi : ℚ) (hlh : lo ≤ hi) (h : x ≤ y) :
    constrain x lo hi ≤ constrain y lo hi := by
  unfold constrain
  split_ifs <;> linarith

theorem usub_millis (t T : Nat) (h : T ≤ t) :
    usub (millis t) (millis T) = (t - T) % ULONG_RANGE := by
  unfold usub millis ULONG_RANGE
  omega

/-! ## Frame lemmas -/

theorem sendAlert_frame (c : AlertClock) (title message : String) (s : State) :
    sendAlert c title message s =
      { s with
        lastAlert := (sendAlert c title message s).lastAlert
        lastAlertTime := (sendAlert c title message s).lastAlertTime
        alertHistory := (sendAlert c title message s).alertHistory
        alertHistoryCount := (sendAlert c title message s).alertHistoryCount
        telegramOutbox := (sendAlert c title message s).telegramOutbox } := by
  unfold sendAlert
  split <;> rfl

theorem sendAlert_irrigationDurationS (c : AlertClock) (title message : String) (s : State) :
    (sendAlert c title message s).irrigationDurationS = s.irrigationDurationS := by
  rw [sendAlert_frame]

theorem sendAlert_of_throttled (c : AlertClock) (title message : String) (s : State)
    (h : usub (millis c.tCheck) s.lastAlertTime < ALERT_THROTTLE_MS) :
    sendAlert c title message s = s := by
  unfold sendAlert
  rw [if_pos h]

theorem sendAlert_lastAlertTime (c : AlertClock) (title message : String) (s : State)
    (h : ¬ usub (millis c.tCheck) s.lastAlertTime < ALERT_THROTTLE_MS) :
    (sendAlert c title message s).lastAlertTime = millis c.tStamp := by
  unfold sendAlert
  rw [if_neg h]

theorem stopPump_pumpState (tStop : Nat) (s : State) : (stopPump tStop s).pumpState = false := by
  unfold stopPump
  cases h : s.pumpState
  · simp [h]
  · simp only [Bool.not_true, Bool.false_eq_true, if_false]
    split <;> rfl

theorem stopPump_alert_fields (tStop : Nat) (s : State) :
    (stopPump tStop s).lastAlert = s.lastAlert ∧
    (stopPump tStop s).lastAlertTime = s.lastAlertTime ∧
    (stopPump tStop s).alertHistory = s.alertHistory ∧
    (stopPump tStop s).alertHistoryCount = s.alertHistoryCount ∧
    (stopPump tStop s).telegramOutbox = s.telegramOutbox ∧
    (stopPump tStop s).TELEGRAM_CHAT_ID = s.TELEGRAM_CHAT_ID := by
  unfold stopPump
  cases h : s.pumpState
  · simp
  · simp only [Bool.not_true, Bool.false_eq_true, if_false]
    split <;> simp

theorem getFertilizerRecommendation_tank (s : State) :
    (getFertilizerRecommendation s).tankLevelLiters = s.tankLevelLiters ∧
    (getFertilizerRecommendation s).tankLevelPercent = s.tankLevelPercent := by
  unfold getFertilizerRecommendation
  simp only
  split_ifs <;> exact ⟨rfl, rfl⟩

theorem ai_water_budgeting_deficit_tank (s : State) :
    (ai_water_budgeting_deficit s).tankLevelLiters = s.tankLevelLiters ∧
    (ai_water_budgeting_deficit s).tankLevelPercent = s.tankLevelPercent := by
  unfold ai_water_budgeting_deficit
  simp only
  split_ifs <;> exact ⟨rfl, rfl⟩

theorem ai_water_budgeting_rain_tank (c : AlertClock) (s : State) :
    (ai_water_budgeting_rain c s).tankLevelLiters = s.tankLevelLiters ∧
    (ai_water_budgeting_rain c s).tankLevelPercent = s.tankLevelPercent := by
  unfold ai_water_budgeting_rain
  split_ifs
  · rw [sendAlert_frame]; exact ⟨rfl, rfl⟩
  · rw [sendAlert_frame]; exact ⟨rfl, rfl⟩
  · exact ⟨rfl, rfl⟩

theorem ai_water_budgeting_tank (c : AlertClock) (s : State) :
    (ai_water_budgeting c s).tankLevelLiters = s.tankLevelLiters ∧
    (ai_water_budgeting c s).tankLevelPercent = s.tankLevelPercent := by
  have h1 := ai_water_budgeting_deficit_tank s
  have h2 := ai_water_budgeting_rain_tank c (ai_water_budgeting_deficit s)
  unfold ai_water_budgeting
  simp only
  split_ifs
  · exact ⟨h2.1.trans h1.1, h2.2.trans h1.2⟩
  · exact ⟨h2.1.trans h1.1, h2.2.trans h1.2⟩

theorem readAllSensors_tank (pi : ℚ) (i : SensorInput) (c : AlertClock) (s : State) :
    (readAllSensors pi i c s).tankLevelLiters =
      calculateConicalTankLevel pi ((i.duration : ℚ) * 0.0343 / 2) ∧
    (readAllSensors pi i c s).tankLevelPercent =
      tankPercent (calculateConicalTankLevel pi ((i.duration : ℚ) * 0.0343 / 2)) := by
  unfold readAllSensors
  simp only
  constructor
  · rw [(getFertilizerRecommendation_tank _).1, (ai_water_budgeting_tank _ _).1]
  · rw [(getFertilizerRecommendation_tank _).2, (ai_water_budgeting_tank _ _).2]

/-! ## Pump controller -/

/-- C1. For every state with `tankLevelLiters < 0.10 * TANK_MAX_CAPACITY` and
every requested duration, `startPump` changes nothing but the alert fields
(`lastAlert`, `lastAlertTime`, `alertHistory`, `alertHistoryCount` and the
notification outbox): the pump state and pin, the session start time and
planned duration, the usage counters and the tank level are unchanged, so a
pump that was off stays off. -/
theorem startPump_low_tank (tStart : Nat) (c : AlertClock) (duration : Nat) (s : State)
    (hlow : s.tankLevelLiters < 0.10 * TANK_MAX_CAPACITY) :
    startPump tStart c duration s =
      { s with
        lastAlert := (startPump tStart c duration s).lastAlert
        lastAlertTime := (startPump tStart c duration s).lastAlertTime
        alertHistory := (startPump tStart c duration s).alertHistory
        alertHistoryCount := (startPump tStart c duration s).alertHistoryCount
        telegramOutbox := (startPump tStart c duration s).telegramOutbox } ∧
    (startPump tStart c duration s).pumpState = s.pumpState ∧
    (startPump tStart c duration s).pumpPin = s.pumpPin ∧
    (startPump tStart c duration s).irrigationStartTime = s.irrigationStartTime ∧
    (startPump tStart c duration s).irrigationDurationS = s.irrigationDurationS ∧
    (startPump tStart c duration s).totalWaterUsed = s.totalWaterUsed ∧
    (startPump tStart c duration s).dailyWaterUsed = s.dailyWaterUsed ∧
    (startPump tStart c duration s).tankLevelLiters = s.tankLevelLiters ∧
    (startPump tStart c duration s).tankLevelPercent = s.tankLevelPercent ∧
    (s.pumpState = false → (startPump tStart c duration s).pumpState = false) := by
  have h : startPump tStart c duration s =
      sendAlert c "‚ö† Cannot Start Pump" "Tank level too low for irrigation." s := by
    unfold startPump
    rw [if_pos hlow]
  rw [h]
  refine ⟨sendAlert_frame _ _ _ _, ?_⟩
  rw [sendAlert_frame]
  simp

/-- C1 at the initial state (empty tank), with a request for 5 s made at
uptime 40 s: the pump stays off. -/
theorem startPump_low_tank_witness :
    initialState.tankLevelLiters < 0.10 * TANK_MAX_CAPACITY ∧
    (startPump 40000 ⟨40000, 40001⟩ 5000 initialState).pumpState = false := by
  have h : initialState.tankLevelLiters < 0.10 * TANK_MAX_CAPACITY := by
    norm_num [initialState, TANK_MAX_CAPACITY]
  exact ⟨h, (startPump_low_tank 40000 ⟨40000, 40001⟩ 5000 initialState h).2.2.2.2.2.2.2.2.2 rfl⟩

/-- C2. For every state with the pump running and
`tankLevelLiters < 0.05 * TANK_MAX_CAPACITY`, whatever the clock readings, the
start time and the planned duration are, `controlIrrigation` is exactly
`stopPump` followed by the emergency-stop `sendAlert`: the pump is off
afterwards, an alert that passes the throttle is the emergency-stop text, a
throttled one leaves the alert fields as they were, and `lastAlert` is the
duration-complete text afterwards only if it already was before. -/
theorem controlIrrigation_emergency_stop (c : IrrigationClock) (s : State)
    (hrun : s.pumpState = true)
    (hlow : s.tankLevelLiters < 0.05 * TANK_MAX_CAPACITY) :
    controlIrrigation c s =
      sendAlert c.alert "‚ö† EMERGENCY STOP" "Tank almost empty!" (stopPump c.tStop s) ∧
    (controlIrrigation c s).pumpState = false ∧
    (controlIrrigation c s).pumpPin = !RELAY_ACTIVE_STATE ∧
    (ALERT_THROTTLE_MS ≤ usub (millis c.alert.tCheck) s.lastAlertTime →
      (controlIrrigation c s).lastAlert = "‚ö† EMERGENCY STOP: Tank almost empty!" ∧
      (controlIrrigation c s).alertHistory 0 = "‚ö† EMERGENCY STOP: Tank almost empty!") ∧
    (usub (millis c.alert.tCheck) s.lastAlertTime < ALERT_THROTTLE_MS →
      (controlIrrigation c s).lastAlert = s.lastAlert ∧
      (controlIrrigation c s).lastAlertTime = s.lastAlertTime ∧
      (controlIrrigation c s).alertHistory = s.alertHistory ∧
      (controlIrrigation c s).alertHistoryCount = s.alertHistoryCount ∧
      (controlIrrigation c s).telegramOutbox = s.telegramOutbox) ∧
    ((controlIrrigation c s).lastAlert = "‚èπ Irrigation Stopped (Time): Duration complete." →
      s.lastAlert = "‚èπ Irrigation Stopped (Time): Duration complete.") := by
  have h : controlIrrigation c s =
      sendAlert c.alert "‚ö† EMERGENCY STOP" "Tank almost empty!" (stopPump c.tStop s) := by
    unfold controlIrrigation
    rw [if_pos ⟨hrun, hlow⟩]
  obtain ⟨ha1, ha2, ha3, ha4, ha5, -⟩ := stopPump_alert_fields c.tStop s
  have hp := stopPump_pumpState c.tStop s
  have hpin : (stopPump c.tStop s).pumpPin = !RELAY_ACTIVE_STATE := by
    unfold stopPump
    simp only [hrun, Bool.not_true, Bool.false_eq_true, if_false]
    split <;> rfl
  rw [h]
  refine ⟨rfl, ?_, ?_, ?_, ?_, ?_⟩
  · rw [sendAlert_frame]; exact hp
  · rw [sendAlert_frame]; exact hpin
  · intro hacc
    have : ¬ usub (millis c.alert.tCheck) (stopPump c.tStop s).lastAlertTime
        < ALERT_THROTTLE_MS := by
      rw [ha2]; omega
    simp only [sendAlert, if_neg this, Function.update_same]
    exact ⟨by decide, by decide⟩
  · intro hthr
    have : usub (millis c.alert.tCheck) (stopPump c.tStop s).lastAlertTime
        < ALERT_THROTTLE_MS := by
      rw [ha2]; exact hthr
    simp only [sendAlert, if_pos this]
    exact ⟨ha1, ha2, ha3, ha4, ha5⟩
  · intro hl
    by_cases hthr : usub (millis c.alert.tCheck) (stopPump c.tStop s).lastAlertTime
        < ALERT_THROTTLE_MS
    · simp only [sendAlert, if_pos hthr] at hl
      rw [← ha1]; exact hl
    · simp only [sendAlert, if_neg hthr] at hl
      exact absurd hl (by decide)

/-- C2 at a manual run (planned 3600 s, started at uptime 100 s) whose tank
has dropped to 0.01 L, evaluated 2 s after the start: the pump is off. -/
theorem controlIrrigation_emergency_stop_witness :
    emergencyInput.pumpState = true ∧
    emergencyInput.tankLevelLiters < 0.05 * TANK_MAX_CAPACITY ∧
    (controlIrrigation ⟨102000, 102001, 102002, ⟨102003, 102004⟩, ⟨102005, 102006⟩⟩
      emergencyInput).pumpState = false := by
  have h : emergencyInput.tankLevelLiters < 0.05 * TANK_MAX_CAPACITY := by
    norm_num [emergencyInput, initialState, TANK_MAX_CAPACITY]
  exact ⟨rfl, h, (controlIrrigation_emergency_stop _ emergencyInput rfl h).2.1⟩

/-- C3. A manual run loses its 3600 s ceiling at the next sensor tick. From a
state with 0.4 L in the tank and soil moisture 55 %: the manual start at
uptime 100 s leaves the pump running with planned duration 3600 s;
`ai_water_budgeting` at 101 s keeps the pump running but overwrites the
planned duration with its own recommendation, 0 s; `controlIrrigation` at
102 s then finds the elapsed 2000 ms to be at least the planned 0 ms and
stops the pump, having pumped for 2 s only. -/
theorem manual_run_duration_overwritten :
    (handleAPIPumpOn 100000 ⟨100000, 100000⟩ manualRunReady).pumpState = true ∧
    (handleAPIPumpOn 100000 ⟨100000, 100000⟩ manualRunReady).irrigationDurationS = 3600 ∧
    (ai_water_budgeting ⟨101000, 101000⟩
      (handleAPIPumpOn 100000 ⟨100000, 100000⟩ manualRunReady)).pumpState = true ∧
    (ai_water_budgeting ⟨101000, 101000⟩
      (handleAPIPumpOn 100000 ⟨100000, 100000⟩ manualRunReady)).irrigationDurationS = 0 ∧
    (controlIrrigation ⟨102000, 102000, 102000, ⟨102000, 102000⟩, ⟨102000, 102000⟩⟩
      (ai_water_budgeting ⟨101000, 101000⟩
        (handleAPIPumpOn 100000 ⟨100000, 100000⟩ manualRunReady))).pumpState = false ∧
    (controlIrrigation ⟨102000, 102000, 102000, ⟨102000, 102000⟩, ⟨102000, 102000⟩⟩
      (ai_water_budgeting ⟨101000, 101000⟩
        (handleAPIPumpOn 100000 ⟨100000, 100000⟩ manualRunReady))).totalWaterUsed =
      2 * PUMP_FLOW_RATE := by
  have h1 : handleAPIPumpOn 100000 ⟨100000, 100000⟩ manualRunReady =
      { manualRunReady with
        autoMode := false, pumpPin := true, pumpState := true,
        irrigationStartTime := 100000, irrigationDurationS := 3600 } := by
    norm_num [handleAPIPumpOn, startPump, manualRunReady, initialState, TANK_MAX_CAPACITY,
      MANUAL_IRRIGATION_DURATION_S, RELAY_ACTIVE_STATE, millis, ULONG_RANGE]
  rw [h1]
  norm_num [ai_water_budgeting, ai_water_budgeting_deficit, ai_water_budgeting_rain,
    manualRunReady, initialState, controlIrrigation, stopPump, sendAlert, usub, millis,
    ULONG_RANGE, TANK_MAX_CAPACITY, toULong, constrain, ALERT_THROTTLE_MS, cropNeed_snd]

/-! ## Water budgeting -/

theorem deficit_duration_eq (s : State) :
    (ai_water_budgeting_deficit s).irrigationDurationS =
      if (50 : ℚ) - (s.soilMoisturePercent : ℚ) > 5 then
        constrain (((50 : ℚ) - (s.soilMoisturePercent : ℚ)) * 0.01 / PUMP_FLOW_RATE) 5 60
      else 0 := by
  unfold ai_water_budgeting_deficit
  simp only [cropNeed_snd, Int.cast_ofNat]
  norm_num
  split_ifs <;> rfl

theorem deficit_duration_range (s : State) :
    (ai_water_budgeting_deficit s).irrigationDurationS = 0 ∨
    (5 ≤ (ai_water_budgeting_deficit s).irrigationDurationS ∧
      (ai_water_budgeting_deficit s).irrigationDurationS ≤ 60) := by
  rw [deficit_duration_eq]
  split_ifs
  · right
    exact constrain_mem _ 5 60 (by norm_num)
  · left; rfl

theorem ai_water_budgeting_irrigationDurationS (c : AlertClock) (s : State) :
    (ai_water_budgeting c s).irrigationDurationS =
      (ai_water_budgeting_rain c (ai_water_budgeting_deficit s)).irrigationDurationS := by
  unfold ai_water_budgeting
  simp only
  split_ifs <;> rfl

/-- C4, counterexample. With soil moisture 40 % and 1.0 mm of rain forecast,
`ai_water_budgeting` leaves `irrigationDurationS = 2.5`: the deficit gives the
clamped 5 s and the rain override halves it, so the result is neither 0 nor in
[5, 60]. -/
theorem ai_water_budgeting_duration_counterexample :
    (ai_water_budgeting ⟨0, 0⟩ rainHalvedInput).irrigationDurationS = 5 / 2 ∧
    ¬ ((ai_water_budgeting ⟨0, 0⟩ rainHalvedInput).irrigationDurationS = 0 ∨
      (5 ≤ (ai_water_budgeting ⟨0, 0⟩ rainHalvedInput).irrigationDurationS ∧
        (ai_water_budgeting ⟨0, 0⟩ rainHalvedInput).irrigationDurationS ≤ 60)) := by
  have h : (ai_water_budgeting ⟨0, 0⟩ rainHalvedInput).irrigationDurationS = 5 / 2 := by
    rw [ai_water_budgeting_irrigationDurationS]
    norm_num [ai_water_budgeting_deficit, ai_water_budgeting_rain, rainHalvedInput,
      initialState, constrain, PUMP_FLOW_RATE, sendAlert_irrigationDurationS, cropNeed_snd]
  rw [h]
  exact ⟨rfl, by norm_num⟩

/-- C4, amended. For every state and clock, the duration computed from the
moisture deficit (before the rain override) is 0 or lies in [5, 60]; the
duration `ai_water_budgeting` leaves is 0, that duration, or half of it, and
hence is 0 or lies in [2.5, 60]. -/
theorem ai_water_budgeting_duration_range (c : AlertClock) (s : State) :
    ((ai_water_budgeting_deficit s).irrigationDurationS = 0 ∨
      (5 ≤ (ai_water_budgeting_deficit s).irrigationDurationS ∧
        (ai_water_budgeting_deficit s).irrigationDurationS ≤ 60)) ∧
    ((ai_water_budgeting c s).irrigationDurationS = 0 ∨
      (ai_water_budgeting c s).irrigationDurationS =
        (ai_water_budgeting_deficit s).irrigationDurationS ∨
      (ai_water_budgeting c s).irrigationDurationS =
        (ai_water_budgeting_deficit s).irrigationDurationS / 2) ∧
    ((ai_water_budgeting c s).irrigationDurationS = 0 ∨
      (5 / 2 ≤ (ai_water_budgeting c s).irrigationDurationS ∧
        (ai_water_budgeting c s).irrigationDurationS ≤ 60)) := by
  have hd := deficit_duration_range s
  have hr : (ai_water_budgeting c s).irrigationDurationS = 0 ∨
      (ai_water_budgeting c s).irrigationDurationS =
        (ai_water_budgeting_deficit s).irrigationDurationS ∨
      (ai_water_budgeting c s).irrigationDurationS =
        (ai_water_budgeting_deficit s).irrigationDurationS / 2 := by
    rw [ai_water_budgeting_irrigationDurationS]
    unfold ai_water_budgeting_rain
    split_ifs
    · right; right
      rw [sendAlert_irrigationDurationS]
      norm_num
      ring
    · left
      rw [sendAlert_irrigationDurationS]
      norm_num
    · right; left; rfl
  refine ⟨hd, hr, ?_⟩
  rcases hr with h | h | h
  · left; exact h
  · rcases hd with h0 | ⟨h5, h60⟩
    · left; rw [h, h0]
    · right; rw [h]; constructor <;> linarith
  · rcases hd with h0 | ⟨h5, h60⟩
    · left; rw [h, h0]; norm_num
    · right; rw [h]; constructor <;> linarith

/-! ## Tank model -/

theorem waterHeight_range (d : ℚ) :
    0 ≤ constrain (SENSOR_TO_EMPTY - d) 0 TANK_HEIGHT ∧
    constrain (SENSOR_TO_EMPTY - d) 0 TANK_HEIGHT ≤ 12 := by
  have := constrain_mem (SENSOR_TO_EMPTY - d) 0 TANK_HEIGHT (by norm_num [TANK_HEIGHT])
  norm_num [TANK_HEIGHT] at this ⊢
  exact this

theorem calculateConicalTankLevel_eq (pi d : ℚ) :
    calculateConicalTankLevel pi d =
      pi / 3000 *
        (27 * constrain (SENSOR_TO_EMPTY - d) 0 TANK_HEIGHT +
          3 / 4 * constrain (SENSOR_TO_EMPTY - d) 0 TANK_HEIGHT ^ 2 +
          1 / 144 * constrain (SENSOR_TO_EMPTY - d) 0 TANK_HEIGHT ^ 3) := by
  obtain ⟨h0, -⟩ := waterHeight_range d
  unfold calculateConicalTankLevel
  simp only
  norm_num
  split_ifs with h
  · have : constrain (SENSOR_TO_EMPTY - d) 0 TANK_HEIGHT = 0 := le_antisymm h h0
    rw [this]; norm_num
  · norm_num [TANK_R_BOTTOM, TANK_R_TOP, TANK_HEIGHT]
    ring

theorem frustum_mono (pi h1 h2 : ℚ) (hpi : 0 ≤ pi) (h0 : 0 ≤ h1) (h12 : h1 ≤ h2) :
    pi / 3000 * (27 * h1 + 3 / 4 * h1 ^ 2 + 1 / 144 * h1 ^ 3) ≤
      pi / 3000 * (27 * h2 + 3 / 4 * h2 ^ 2 + 1 / 144 * h2 ^ 3) := by
  have hsq : h1 ^ 2 ≤ h2 ^ 2 := pow_le_pow_left₀ h0 h12 2
  have hcu : h1 ^ 3 ≤ h2 ^ 3 := pow_le_pow_left₀ h0 h12 3
  apply mul_le_mul_of_nonneg_left _ (by positivity)
  linarith

theorem calculateConicalTankLevel_antitone (pi d1 d2 : ℚ) (hpi : 0 ≤ pi) (h : d1 ≤ d2) :
    calculateConicalTankLevel pi d2 ≤ calculateConicalTankLevel pi d1 := by
  rw [calculateConicalTankLevel_eq, calculateConicalTankLevel_eq]
  apply frustum_mono pi _ _ hpi (waterHeight_range d2).1
  apply constrain_mono _ _ _ _ (by norm_num [TANK_HEIGHT])
  linarith

theorem calculateConicalTankLevel_nonneg (pi d : ℚ) (hpi : 0 ≤ pi) :
    0 ≤ calculateConicalTankLevel pi d := by
  obtain ⟨h0, -⟩ := waterHeight_range d
  rw [calculateConicalTankLevel_eq]
  positivity

theorem calculateConicalTankLevel_le_full (pi d : ℚ) (hpi : 0 ≤ pi) :
    calculateConicalTankLevel pi d ≤ 148 / 1000 * pi := by
  obtain ⟨h0, h12⟩ := waterHeight_range d
  rw [calculateConicalTankLevel_eq]
  have := frustum_mono pi _ 12 hpi h0 h12
  norm_num at this ⊢
  linarith

theorem calculateConicalTankLevel_full (pi d : ℚ) (hd : d ≤ SENSOR_TO_FULL) :
    calculateConicalTankLevel pi d = 148 / 1000 * pi := by
  have : constrain (SENSOR_TO_EMPTY - d) 0 TANK_HEIGHT = 12 := by
    unfold constrain
    norm_num [SENSOR_TO_EMPTY, SENSOR_TO_FULL, TANK_HEIGHT] at hd ⊢
    split_ifs <;> linarith
  rw [calculateConicalTankLevel_eq, this]
  norm_num
  ring

theorem calculateConicalTankLevel_empty (pi d : ℚ) (hd : SENSOR_TO_EMPTY ≤ d) :
    calculateConicalTankLevel pi d = 0 := by
  have hle : SENSOR_TO_EMPTY - d ≤ 0 := by linarith
  have : constrain (SENSOR_TO_EMPTY - d) 0 TANK_HEIGHT = 0 := by
    unfold constrain
    split_ifs with h1 h2
    · rfl
    · norm_num [TANK_HEIGHT] at h2
      linarith
    · exact le_antisymm hle (not_lt.mp h1)
  rw [calculateConicalTankLevel_eq, this]
  norm_num

theorem tankPercent_mono (a b : ℚ) (h : a ≤ b) : tankPercent a ≤ tankPercent b := by
  unfold tankPercent
  apply constrain_mono _ _ _ _ (by norm_num)
  norm_num [TANK_MAX_CAPACITY]
  linarith

theorem tankPercent_range (a : ℚ) : 0 ≤ tankPercent a ∧ tankPercent a ≤ 100 :=
  constrain_mem _ 0 100 (by norm_num)

theorem tankPercent_of_range (a : ℚ) (h0 : 0 ≤ a) (h1 : a ≤ TANK_MAX_CAPACITY) :
    tankPercent a = 200 * a := by
  unfold tankPercent constrain
  norm_num [TANK_MAX_CAPACITY] at h1 ⊢
  split_ifs <;> linarith

theorem PI_range : 0 ≤ PI ∧ PI ≤ 22 / 7 := by
  norm_num [PI]

/-- C5. For every value of π between 0 and 22/7 and every distance reading
`d` (negative, zero and beyond-range values included),
`calculateConicalTankLevel` returns litres in `[0, TANK_MAX_CAPACITY]` and the
percent derived from it lies in `[0, 100]`; the same bounds hold for the
`tankLevelLiters` and `tankLevelPercent` that `readAllSensors` leaves for
every sensor input. -/
theorem tank_level_bounds (pi : ℚ) (hpi0 : 0 ≤ pi) (hpi : pi ≤ 22 / 7) (d : ℚ)
    (i : SensorInput) (c : AlertClock) (s : State) :
    (0 ≤ calculateConicalTankLevel pi d ∧
      calculateConicalTankLevel pi d ≤ TANK_MAX_CAPACITY) ∧
    (0 ≤ tankPercent (calculateConicalTankLevel pi d) ∧
      tankPercent (calculateConicalTankLevel pi d) ≤ 100) ∧
    (0 ≤ (readAllSensors pi i c s).tankLevelLiters ∧
      (readAllSensors pi i c s).tankLevelLiters ≤ TANK_MAX_CAPACITY) ∧
    (0 ≤ (readAllSensors pi i c s).tankLevelPercent ∧
      (readAllSensors pi i c s).tankLevelPercent ≤ 100) := by
  have hb : ∀ x, 0 ≤ calculateConicalTankLevel pi x ∧
      calculateConicalTankLevel pi x ≤ TANK_MAX_CAPACITY := by
    intro x
    refine ⟨calculateConicalTankLevel_nonneg pi x hpi0, ?_⟩
    have := calculateConicalTankLevel_le_full pi x hpi0
    norm_num [TANK_MAX_CAPACITY]
    linarith
  obtain ⟨hl, hp⟩ := readAllSensors_tank pi i c s
  rw [hl, hp]
  exact ⟨hb d, tankPercent_range _, hb _, tankPercent_range _⟩

/-- C5 at the Arduino value of π, for a timed-out echo (distance 0) and a
sensor input of 500 µs echo time. -/
theorem tank_level_bounds_witness :
    (0 ≤ PI ∧ PI ≤ 22 / 7) ∧
    (0 ≤ calculateConicalTankLevel PI 0 ∧ calculateConicalTankLevel PI 0 ≤ TANK_MAX_CAPACITY) ∧
    (0 ≤ tankPercent (calculateConicalTankLevel PI 0) ∧
      tankPercent (calculateConicalTankLevel PI 0) ≤ 100) :=
  ⟨PI_range,
    (tank_level_bounds PI PI_range.1 PI_range.2 0 ⟨none, none, 0, 500⟩ ⟨0, 0⟩ initialState).1,
    (tank_level_bounds PI PI_range.1 PI_range.2 0 ⟨none, none, 0, 500⟩ ⟨0, 0⟩ initialState).2.1⟩

/-- C6, counterexample. At the distance `SENSOR_TO_EMPTY` (14 cm) the tank
percent is 0, and at distance 0 (full tank) it is 29.6 π, below 100. -/
theorem tank_percent_full_counterexample :
    ((14 : ℚ) ≤ SENSOR_TO_EMPTY ∧ tankPercent (calculateConicalTankLevel PI 14) = 0 ∧
      tankPercent (calculateConicalTankLevel PI 14) ≠ 100) ∧
    ((0 : ℚ) ≤ SENSOR_TO_EMPTY ∧ tankPercent (calculateConicalTankLevel PI 0) = 148 / 5 * PI ∧
      tankPercent (calculateConicalTankLevel PI 0) ≠ 100) := by
  have h14 : calculateConicalTankLevel PI 14 = 0 :=
    calculateConicalTankLevel_empty PI 14 (by norm_num [SENSOR_TO_EMPTY, SENSOR_TO_FULL, TANK_HEIGHT])
  have h0 : calculateConicalTankLevel PI 0 = 148 / 1000 * PI :=
    calculateConicalTankLevel_full PI 0 (by norm_num [SENSOR_TO_FULL])
  have hp0 : tankPercent (148 / 1000 * PI) = 148 / 5 * PI := by
    rw [tankPercent_of_range _ (by norm_num [PI]) (by norm_num [PI, TANK_MAX_CAPACITY])]
    ring
  have hp14 : tankPercent 0 = 0 := by
    rw [tankPercent_of_range 0 (le_refl _) (by norm_num [TANK_MAX_CAPACITY])]
    norm_num
  rw [h14, h0, hp0, hp14]
  refine ⟨⟨by norm_num [SENSOR_TO_EMPTY, SENSOR_TO_FULL, TANK_HEIGHT], rfl, by norm_num⟩,
    ⟨by norm_num [SENSOR_TO_EMPTY, SENSOR_TO_FULL, TANK_HEIGHT], rfl, by norm_num [PI]⟩⟩

/-- C6, amended. For every value of π between 0 and 22/7 and every distance
`d ≤ SENSOR_TO_FULL` (2 cm), the level is the volume of the whole frustum,
0.148 π litres, and the tank percent is 29.6 π: the largest percent any
distance gives, and below 100. -/
theorem tank_percent_full (pi : ℚ) (hpi0 : 0 ≤ pi) (hpi : pi ≤ 22 / 7) (d : ℚ)
    (hd : d ≤ SENSOR_TO_FULL) :
    calculateConicalTankLevel pi d = 148 / 1000 * pi ∧
    tankPercent (calculateConicalTankLevel pi d) = 148 / 5 * pi ∧
    tankPercent (calculateConicalTankLevel pi d) < 100 ∧
    ∀ d2, tankPercent (calculateConicalTankLevel pi d2) ≤
      tankPercent (calculateConicalTankLevel pi d) := by
  have hfull := calculateConicalTankLevel_full pi d hd
  have hp : tankPercent (calculateConicalTankLevel pi d) = 148 / 5 * pi := by
    rw [hfull, tankPercent_of_range _ (by positivity) (by norm_num [TANK_MAX_CAPACITY]; linarith)]
    ring
  refine ⟨hfull, hp, by rw [hp]; linarith, ?_⟩
  intro d2
  apply tankPercent_mono
  rw [hfull]
  exact calculateConicalTankLevel_le_full pi d2 hpi0

/-- C6 amended, at the Arduino value of π and a timed-out echo (distance 0). -/
theorem tank_percent_full_witness :
    (0 ≤ PI ∧ PI ≤ 22 / 7) ∧ (0 : ℚ) ≤ SENSOR_TO_FULL ∧
    tankPercent (calculateConicalTankLevel PI 0) = 148 / 5 * PI :=
  ⟨PI_range, by norm_num [SENSOR_TO_FULL],
    (tank_percent_full PI PI_range.1 PI_range.2 0 (by norm_num [SENSOR_TO_FULL])).2.1⟩

/-- C7. For every non-negative value of π and all distances `d1 ≤ d2`, the
level computed for `d2` is at most the level computed for `d1`, and so is the
derived percent. -/
theorem tank_level_antitone (pi : ℚ) (hpi0 : 0 ≤ pi) (d1 d2 : ℚ) (h : d1 ≤ d2) :
    calculateConicalTankLevel pi d2 ≤ calculateConicalTankLevel pi d1 ∧
    tankPercent (calculateConicalTankLevel pi d2) ≤
      tankPercent (calculateConicalTankLevel pi d1) :=
  ⟨calculateConicalTankLevel_antitone pi d1 d2 hpi0 h,
    tankPercent_mono _ _ (calculateConicalTankLevel_antitone pi d1 d2 hpi0 h)⟩

/-- C7 at the Arduino value of π, for the distances 5 cm and 9 cm. -/
theorem tank_level_antitone_witness :
    0 ≤ PI ∧ (5 : ℚ) ≤ 9 ∧
    calculateConicalTankLevel PI 9 ≤ calculateConicalTankLevel PI 5 :=
  ⟨PI_range.1, by norm_num, (tank_level_antitone PI PI_range.1 5 9 (by norm_num)).1⟩

/-! ## Alert manager -/

theorem shiftAlerts_apply (i : Nat) (hist : Nat → String) (j : Nat) :
    shiftAlerts i hist j = if 1 ≤ j ∧ j ≤ i ∧ j < 5 then hist (j - 1) else hist j := by
  induction i generalizing hist with
  | zero =>
    have : ¬ (1 ≤ j ∧ j ≤ 0 ∧ j < 5) := by omega
    rw [if_neg this]; rfl
  | succ i ih =>
    rw [shiftAlerts, ih]
    by_cases h5 : i + 1 < 5
    · rw [if_pos h5]
      by_cases hj : 1 ≤ j ∧ j ≤ i ∧ j < 5
      · have hj' : 1 ≤ j ∧ j ≤ i + 1 ∧ j < 5 := by omega
        rw [if_pos hj, if_pos hj', Function.update_noteq (by omega)]
      · rw [if_neg hj]
        by_cases hji : j = i + 1
        · have hj' : 1 ≤ j ∧ j ≤ i + 1 ∧ j < 5 := by omega
          rw [if_pos hj', hji, Function.update_same]
          rfl
        · have hj' : ¬ (1 ≤ j ∧ j ≤ i + 1 ∧ j < 5) := by omega
          rw [if_neg hj', Function.update_noteq hji]
    · rw [if_neg h5]
      by_cases hj : 1 ≤ j ∧ j ≤ i ∧ j < 5
      · have hj' : 1 ≤ j ∧ j ≤ i + 1 ∧ j < 5 := by omega
        rw [if_pos hj, if_pos hj']
      · have hj' : ¬ (1 ≤ j ∧ j ≤ i + 1 ∧ j < 5) := by omega
        rw [if_neg hj, if_neg hj']

theorem accepted_after (calls : List AlertCall) (s : State) (T : Nat)
    (hs : s.lastAlertTime = millis T)
    (hT : ∀ t ∈ clockReadings calls, T ≤ t)
    (hord : (clockReadings calls).Pairwise (fun a b => a ≤ b)) :
    ∀ a ∈ acceptedAlerts calls s, T + ALERT_THROTTLE_MS ≤ a.clock.tStamp := by
  induction calls generalizing s T with
  | nil => intro a ha; simp [acceptedAlerts] at ha
  | cons x rest ih =>
    have hx1 : T ≤ x.clock.tCheck := hT _ (by simp [clockReadings])
    have hx12 : x.clock.tCheck ≤ x.clock.tStamp := by
      simp [clockReadings] at hord
      exact hord.1.1
    have hrest : (clockReadings rest).Pairwise (fun a b => a ≤ b) := by
      simp [clockReadings] at hord
      exact hord.2.2
    have hrestT : ∀ t ∈ clockReadings rest, T ≤ t := by
      intro t ht
      apply hT
      simp only [clockReadings, List.flatMap_cons, List.mem_append] at ht ⊢
      exact Or.inr ht
    have hrestS : ∀ t ∈ clockReadings rest, x.clock.tStamp ≤ t := by
      intro t ht
      simp only [clockReadings, List.flatMap_cons, List.cons_append, List.nil_append,
        List.pairwise_cons] at hord
      exact hord.2.1 t ht
    intro a ha
    unfold acceptedAlerts at ha
    by_cases hthr : usub (millis x.clock.tCheck) s.lastAlertTime < ALERT_THROTTLE_MS
    · rw [if_pos hthr, sendAlert_of_throttled _ _ _ _ hthr] at ha
      exact ih s T hs hrestT hrest a ha
    · rw [if_neg hthr] at ha
      have hgap : T + ALERT_THROTTLE_MS ≤ x.clock.tCheck := by
        rw [hs, usub_millis _ _ hx1] at hthr
        unfold ULONG_RANGE at hthr
        unfold ALERT_THROTTLE_MS at hthr ⊢
        omega
      rcases List.mem_cons.mp ha with rfl | ha
      · omega
      · have := ih _ x.clock.tStamp (sendAlert_lastAlertTime _ _ _ _ hthr) hrestS hrest a ha
        omega

theorem accepted_spacing (calls : List AlertCall) (s : State)
    (hord : (clockReadings calls).Pairwise (fun a b => a ≤ b)) :
    (acceptedAlerts calls s).Pairwise
      (fun a b => a.clock.tStamp + ALERT_THROTTLE_MS ≤ b.clock.tStamp) := by
  induction calls generalizing s with
  | nil => simp [acceptedAlerts]
  | cons x rest ih =>
    have hrest : (clockReadings rest).Pairwise (fun a b => a ≤ b) := by
      simp [clockReadings] at hord
      exact hord.2.2
    have hrestS : ∀ t ∈ clockReadings rest, x.clock.tStamp ≤ t := by
      intro t ht
      simp only [clockReadings, List.flatMap_cons, List.cons_append, List.nil_append,
        List.pairwise_cons] at hord
      exact hord.2.1 t ht
    unfold acceptedAlerts
    by_cases hthr : usub (millis x.clock.tCheck) s.lastAlertTime < ALERT_THROTTLE_MS
    · rw [if_pos hthr]
      exact ih _ hrest
    · rw [if_neg hthr, List.pairwise_cons]
      exact ⟨accepted_after rest _ x.clock.tStamp (sendAlert_lastAlertTime _ _ _ _ hthr)
        hrestS hrest, ih _ hrest⟩


theorem sendAlert_accepted_history (c : AlertClock) (title message : String) (s : State)
    (h : ¬ usub (millis c.tCheck) s.lastAlertTime < ALERT_THROTTLE_MS) :
    (sendAlert c title message s).lastAlert = title ++ ": " ++ message ∧
    (sendAlert c title message s).alertHistoryCount =
      (if s.alertHistoryCount < 5 then s.alertHistoryCount + 1 else s.alertHistoryCount) ∧
    ∀ j, (sendAlert c title message s).alertHistory j =
      if j = 0 then title ++ ": " ++ message
      else if j ≤ s.alertHistoryCount ∧ j < 5 then s.alertHistory (j - 1)
      else s.alertHistory j := by
  unfold sendAlert
  rw [if_neg h]
  refine ⟨rfl, rfl, ?_⟩
  intro j
  by_cases hj : j = 0
  · subst hj; simp
  · simp only [Function.update_noteq hj, if_neg hj, shiftAlerts_apply]
    by_cases hc : j ≤ s.alertHistoryCount ∧ j < 5
    · rw [if_pos hc, if_pos (by omega)]
    · rw [if_neg hc, if_neg (by omega)]

theorem acceptedAlerts_cons_throttled (x : AlertCall) (rest : List AlertCall) (s : State)
    (h : usub (millis x.clock.tCheck) s.lastAlertTime < ALERT_THROTTLE_MS) :
    acceptedAlerts (x :: rest) s = acceptedAlerts rest s := by
  rw [acceptedAlerts, if_pos h, sendAlert_of_throttled _ _ _ _ h]

theorem acceptedAlerts_cons_accepted (x : AlertCall) (rest : List AlertCall) (s : State)
    (h : ¬ usub (millis x.clock.tCheck) s.lastAlertTime < ALERT_THROTTLE_MS) :
    acceptedAlerts (x :: rest) s =
      x :: acceptedAlerts rest (sendAlert x.clock x.title x.message s) := by
  rw [acceptedAlerts, if_neg h]

theorem sendAlerts_cons (x : AlertCall) (rest : List AlertCall) (s : State) :
    sendAlerts (x :: rest) s = sendAlerts rest (sendAlert x.clock x.title x.message s) := rfl

theorem sendAlerts_history (calls : List AlertCall) (s : State) (L : List String)
    (hL : L ≠ [])
    (hcount : s.alertHistoryCount = min L.length 5)
    (hhist : ∀ j, j < s.alertHistoryCount → s.alertHistory j = L.getD j "") :
    (sendAlerts calls s).alertHistoryCount =
      min (((acceptedAlerts calls s).map AlertCall.text).reverse ++ L).length 5 ∧
    ∀ j, j < (sendAlerts calls s).alertHistoryCount →
      (sendAlerts calls s).alertHistory j =
        (((acceptedAlerts calls s).map AlertCall.text).reverse ++ L).getD j "" := by
  induction calls generalizing s L with
  | nil =>
    simp only [sendAlerts, acceptedAlerts, List.map_nil, List.reverse_nil, List.nil_append]
    exact ⟨hcount, hhist⟩
  | cons x rest ih =>
    have hlen : 1 ≤ L.length := List.length_pos.mpr hL
    rw [sendAlerts_cons]
    by_cases hthr : usub (millis x.clock.tCheck) s.lastAlertTime < ALERT_THROTTLE_MS
    · rw [acceptedAlerts_cons_throttled _ _ _ hthr, sendAlert_of_throttled _ _ _ _ hthr]
      exact ih s L hL hcount hhist
    · rw [acceptedAlerts_cons_accepted _ _ _ hthr]
      obtain ⟨-, hc, hh⟩ := sendAlert_accepted_history x.clock x.title x.message s hthr
      have key := ih (sendAlert x.clock x.title x.message s) (x.text :: L)
        (List.cons_ne_nil _ _)
        (by rw [hc, hcount, List.length_cons]; split_ifs <;> omega)
        (by
          intro j hj
          rw [hh j]
          by_cases hj0 : j = 0
          · subst hj0; simp [AlertCall.text, List.getD]
          · rw [hc] at hj
            have hj1 : j ≤ s.alertHistoryCount ∧ j < 5 := by
              rw [hcount] at hj ⊢
              split_ifs at hj <;> omega
            rw [if_neg hj0, if_pos hj1, hhist (j - 1) (by omega)]
            obtain ⟨k, rfl⟩ : ∃ k, j = k + 1 := ⟨j - 1, by omega⟩
            simp [List.getD])
      simp only [List.map_cons, List.reverse_cons, List.append_assoc, List.singleton_append]
      exact key

theorem sendAlerts_of_none_accepted (calls : List AlertCall) (s : State)
    (h : acceptedAlerts calls s = []) : sendAlerts calls s = s := by
  induction calls generalizing s with
  | nil => rfl
  | cons x rest ih =>
    by_cases hthr : usub (millis x.clock.tCheck) s.lastAlertTime < ALERT_THROTTLE_MS
    · rw [acceptedAlerts_cons_throttled _ _ _ hthr] at h
      rw [sendAlerts_cons, sendAlert_of_throttled _ _ _ _ hthr]
      exact ih s h
    · rw [acceptedAlerts_cons_accepted _ _ _ hthr] at h
      exact absurd h (List.cons_ne_nil _ _)

theorem sendAlerts_lastAlert (calls : List AlertCall) (s : State)
    (h : acceptedAlerts calls s ≠ []) :
    some (sendAlerts calls s).lastAlert =
      ((acceptedAlerts calls s).map AlertCall.text).reverse.head? := by
  induction calls generalizing s with
  | nil => exact absurd rfl h
  | cons x rest ih =>
    rw [sendAlerts_cons]
    by_cases hthr : usub (millis x.clock.tCheck) s.lastAlertTime < ALERT_THROTTLE_MS
    · rw [acceptedAlerts_cons_throttled _ _ _ hthr] at h ⊢
      rw [sendAlert_of_throttled _ _ _ _ hthr]
      exact ih s h
    · rw [acceptedAlerts_cons_accepted _ _ _ hthr]
      by_cases hrest : acceptedAlerts rest (sendAlert x.clock x.title x.message s) = []
      · rw [sendAlerts_of_none_accepted _ _ hrest, hrest]
        simp [(sendAlert_accepted_history _ _ _ _ hthr).1, AlertCall.text]
      · have hne : ((acceptedAlerts rest (sendAlert x.clock x.title x.message s)).map
            AlertCall.text).reverse ≠ [] := by simpa using hrest
        rw [ih _ hrest, List.map_cons, List.reverse_cons, List.head?_append_of_ne_nil _ hne]


/-- C8. The throttle of `sendAlert` is global. Whatever the title and message, a
call whose throttle test reads less than `ALERT_THROTTLE_MS` since
`lastAlertTime` returns the state unchanged; in particular a call made less
than 30 000 ms of uptime after the stamp `T` of the last accepted alert does.
Consequently, in every sequence of calls whose clock readings do not decrease,
the stamps of any two accepted alerts are at least 30 000 ms apart. -/
theorem alert_throttle_global (calls : List AlertCall) (s0 : State)
    (hord : (clockReadings calls).Pairwise (fun a b => a ≤ b)) :
    (∀ (c : AlertClock) (title message : String) (s : State),
      usub (millis c.tCheck) s.lastAlertTime < ALERT_THROTTLE_MS →
        sendAlert c title message s = s) ∧
    (∀ (c : AlertClock) (title message : String) (s : State) (T : Nat),
      s.lastAlertTime = millis T → T ≤ c.tCheck → c.tCheck < T + ALERT_THROTTLE_MS →
        sendAlert c title message s = s) ∧
    (acceptedAlerts calls s0).Pairwise
      (fun a b => a.clock.tStamp + ALERT_THROTTLE_MS ≤ b.clock.tStamp) := by
  refine ⟨sendAlert_of_throttled, ?_, accepted_spacing calls s0 hord⟩
  intro c title message s T hs hT hlt
  apply sendAlert_of_throttled
  rw [hs, usub_millis _ _ hT]
  unfold ULONG_RANGE
  unfold ALERT_THROTTLE_MS at hlt ⊢
  omega

/-- C8 for three alerts raised at uptimes 40 s, 50 s and 71 s from the initial
state. -/
theorem alert_throttle_global_witness :
    (clockReadings sampleAlertCalls).Pairwise (fun a b => a ≤ b) ∧
    (acceptedAlerts sampleAlertCalls initialState).Pairwise
      (fun a b => a.clock.tStamp + ALERT_THROTTLE_MS ≤ b.clock.tStamp) := by
  have h : (clockReadings sampleAlertCalls).Pairwise (fun a b => a ≤ b) := by
    simp [clockReadings, sampleAlertCalls]
  exact ⟨h, (alert_throttle_global sampleAlertCalls initialState h).2.2⟩

/-- C9. Starting from the initial alert state (`alertHistory` holding only
"System Initialized.", `alertHistoryCount = 1`), after any sequence of
`sendAlert` calls of which `n` were accepted, with combined texts
`a1, …, an`: the first `alertHistoryCount` entries of `alertHistory` are the
first 5 elements of `[an, …, a1, "System Initialized."]`,
`alertHistoryCount = min (n + 1) 5`, and for `n ≥ 1`
`lastAlert = an = alertHistory[0]`. -/
theorem alert_history_newest_first (calls : List AlertCall) (s : State)
    (hhist : s.alertHistory = initialAlertHistory) (hcount : s.alertHistoryCount = 1) :
    (List.range (sendAlerts calls s).alertHistoryCount).map (sendAlerts calls s).alertHistory =
      List.take 5
        (((acceptedAlerts calls s).map AlertCall.text).reverse ++ ["System Initialized."]) ∧
    (sendAlerts calls s).alertHistoryCount = min ((acceptedAlerts calls s).length + 1) 5 ∧
    (1 ≤ (acceptedAlerts calls s).length →
      some (sendAlerts calls s).lastAlert =
        ((acceptedAlerts calls s).map AlertCall.text).reverse.head? ∧
      (sendAlerts calls s).alertHistory 0 = (sendAlerts calls s).lastAlert) := by
  obtain ⟨hc, hh⟩ := sendAlerts_history calls s ["System Initialized."] (by simp)
    (by rw [hcount]; rfl)
    (by
      intro j hj
      rw [hcount] at hj
      obtain rfl : j = 0 := by omega
      rw [hhist]; rfl)
  have hc' : (sendAlerts calls s).alertHistoryCount =
      min ((acceptedAlerts calls s).length + 1) 5 := by
    rw [hc]; simp
  refine ⟨?_, hc', ?_⟩
  · apply List.ext_getElem
    · rw [List.length_map, List.length_range, List.length_take, hc, Nat.min_comm]
    · intro i h1 h2
      rw [List.getElem_map, List.getElem_range, List.getElem_take]
      rw [List.length_map, List.length_range] at h1
      rw [hh i h1, List.getD_eq_getElem]
  · intro hn
    have hne : acceptedAlerts calls s ≠ [] := List.length_pos.mp hn
    have hl := sendAlerts_lastAlert calls s hne
    refine ⟨hl, ?_⟩
    have hne' : ((acceptedAlerts calls s).map AlertCall.text).reverse ≠ [] := by simpa using hne
    rw [hh 0 (by rw [hc']; omega)]
    rw [List.getD_eq_getElem?_getD, ← List.head?_eq_getElem?,
      List.head?_append_of_ne_nil _ hne', ← hl]
    rfl

/-- C9 for three alerts raised at uptimes 40 s, 50 s and 71 s from the initial
state. -/
theorem alert_history_newest_first_witness :
    initialState.alertHistory = initialAlertHistory ∧ initialState.alertHistoryCount = 1 ∧
    (sendAlerts sampleAlertCalls initialState).alertHistoryCount =
      min ((acceptedAlerts sampleAlertCalls initialState).length + 1) 5 :=
  ⟨rfl, rfl, (alert_history_newest_first sampleAlertCalls initialState rfl rfl).2.1⟩

/-! ## History buffer -/

theorem tripleHistory_read_entry (s : State) (k c : Nat) (hk : k < 24) (hc : c < 3) :
    (handleAPIData_tripleHistory s)[3 * k + c]? =
      some (s.tripleHistory (((s.historyIndex + k) % 24) * 3 + c)) := by
  unfold handleAPIData_tripleHistory
  interval_cases k <;> interval_cases c <;> simp [List.range, List.range.loop]


theorem sequentialSamples_succ (n : Nat) :
    sequentialSamples (n + 1) = recordSample (sequentialSamples n) (n + 1) := by
  unfold sequentialSamples
  rw [List.range'_1_concat, List.foldl_append, Nat.add_comm 1 n]
  rfl

theorem recordSample_due (s : State) (n : Nat)
    (h : s.lastHistoryUpdate = millis (n * HISTORY_UPDATE_INTERVAL)) :
    recordSample s (n + 1) =
      { s with
        soilMoisturePercent := ((n + 1 : Nat) : Int)
        temperature := ((n + 1 : Nat) : ℚ)
        humidity := ((n + 1 : Nat) : ℚ)
        historyIndex := (s.historyIndex + 1) % 24
        tripleHistory :=
          Function.update
            (Function.update
              (Function.update s.tripleHistory ((s.historyIndex + 1) % 24 * 3)
                ((n + 1 : Nat) : ℚ))
              ((s.historyIndex + 1) % 24 * 3 + 1) ((n + 1 : Nat) : ℚ))
            ((s.historyIndex + 1) % 24 * 3 + 2) ((n + 1 : Nat) : ℚ)
        lastHistoryUpdate := millis ((n + 1) * HISTORY_UPDATE_INTERVAL) } := by
  have hdue : usub (millis ((n + 1) * HISTORY_UPDATE_INTERVAL)) (millis (n * HISTORY_UPDATE_INTERVAL))
      ≥ HISTORY_UPDATE_INTERVAL := by
    rw [usub_millis _ _ (Nat.mul_le_mul_right _ (Nat.le_succ n))]
    unfold HISTORY_UPDATE_INTERVAL ULONG_RANGE
    omega
  unfold recordSample updateHistoricalData
  simp only [h, if_pos hdue]
  simp

theorem update_triple_apply (f : Nat → ℚ) (b : Nat) (v : ℚ) (i : Nat) :
    Function.update (Function.update (Function.update f b v) (b + 1) v) (b + 2) v i =
      if b ≤ i ∧ i ≤ b + 2 then v else f i := by
  simp only [Function.update_apply]
  split_ifs <;> first | rfl | omega

theorem sequentialSamples_spec (n : Nat) :
    (sequentialSamples n).historyIndex = n % 24 ∧
    (sequentialSamples n).lastHistoryUpdate = millis (n * HISTORY_UPDATE_INTERVAL) ∧
    ∀ p c, p < 24 → c < 3 →
      (sequentialSamples n).tripleHistory (p * 3 + c) = ((n - (n + 24 - p) % 24 : ℕ) : ℚ) := by
  induction n with
  | zero =>
    refine ⟨rfl, rfl, ?_⟩
    intro p c _ _
    simp [sequentialSamples, initialState]
  | succ n ih =>
    obtain ⟨hi, hl, hv⟩ := ih
    rw [sequentialSamples_succ, recordSample_due _ n hl]
    refine ⟨?_, rfl, ?_⟩
    · simp only [hi]; omega
    · intro p c hp hc
      show Function.update (Function.update (Function.update _ _ _) _ _) _ _ (p * 3 + c) = _
      rw [update_triple_apply, hi]
      by_cases hpn : p = (n % 24 + 1) % 24
      · have hval : n + 1 - (n + 1 + 24 - p) % 24 = n + 1 := by omega
        rw [hval, if_pos (by omega)]
      · have hval : n + 1 - (n + 1 + 24 - p) % 24 = n - (n + 24 - p) % 24 := by omega
        rw [hval, if_neg (by omega)]
        exact hv p c hp hc

/-- C10. The read of `handleAPIData` starts at the slot `historyIndex` itself:
for every state its `k`-th triple is slot `(historyIndex + k) % 24`, not slot
`(historyIndex + 1 + k) % 24`. After the 25 sequential samples `1, …, 25`
the write index is 1, slot 1 holds sample 25, and the read lists the samples
as 25, 2, 3, …, 24: the newest sample comes first, not last. -/
theorem tripleHistory_read_after_25 :
    (∀ (s : State) (k : Fin 24) (c : Fin 3),
      (handleAPIData_tripleHistory s)[3 * k.val + c.val]? =
        some (s.tripleHistory (((s.historyIndex + k.val) % 24) * 3 + c.val))) ∧
    (sequentialSamples 25).historyIndex = 1 ∧
    (sequentialSamples 25).tripleHistory (1 * 3) = 25 ∧
    handleAPIData_tripleHistory (sequentialSamples 25) =
      [25, 25, 25, 2, 2, 2, 3, 3, 3, 4, 4, 4, 5, 5, 5, 6, 6, 6, 7, 7, 7, 8, 8, 8, 9, 9, 9,
        10, 10, 10, 11, 11, 11, 12, 12, 12, 13, 13, 13, 14, 14, 14, 15, 15, 15, 16, 16, 16,
        17, 17, 17, 18, 18, 18, 19, 19, 19, 20, 20, 20, 21, 21, 21, 22, 22, 22, 23, 23, 23,
        24, 24, 24] := by
  obtain ⟨hi, -, hv⟩ := sequentialSamples_spec 25
  have hv' : ∀ i, i < 72 →
      (sequentialSamples 25).tripleHistory i = ((25 - (25 + 24 - i / 3) % 24 : ℕ) : ℚ) := by
    intro i hi72
    have := hv (i / 3) (i % 3) (by omega) (by omega)
    rwa [Nat.div_add_mod' i 3] at this
  refine ⟨fun s k c => tripleHistory_read_entry s k.val c.val k.isLt c.isLt, hi, ?_, ?_⟩
  · rw [hv' _ (by norm_num)]; norm_num
  · unfold handleAPIData_tripleHistory
    simp only [hi, List.range, List.range.loop, List.flatMap_cons, List.flatMap_nil]
    norm_num [hv']

/-! ## History buffer contents -/

theorem historyAfter_succ_due (s0 : State) (tick : Nat → HistoryTick) (n : Nat)
    (h : tickDue s0 tick n) :
    (historyAfter s0 tick (n + 1)).historyIndex =
      ((historyAfter s0 tick n).historyIndex + 1) % 24 ∧
    (historyAfter s0 tick (n + 1)).lastHistoryUpdate = millis (tick (n + 1)).tStamp ∧
    ∀ i, (historyAfter s0 tick (n + 1)).tripleHistory i =
      if i = ((historyAfter s0 tick n).historyIndex + 1) % 24 * 3 then
        ((tick (n + 1)).soil : ℚ)
      else if i = ((historyAfter s0 tick n).historyIndex + 1) % 24 * 3 + 1 then
        (tick (n + 1)).temperature
      else if i = ((historyAfter s0 tick n).historyIndex + 1) % 24 * 3 + 2 then
        (tick (n + 1)).humidity
      else (historyAfter s0 tick n).tripleHistory i := by
  unfold tickDue at h
  rw [historyAfter]
  unfold updateHistoricalData
  simp only [ge_iff_le, h, if_true]
  refine ⟨trivial, trivial, ?_⟩
  intro i
  simp only [Function.update_apply]
  split_ifs <;> first | rfl | omega

theorem historyAfter_spec (s0 : State) (tick : Nat → HistoryTick) (n : Nat)
    (h0 : s0.historyIndex = 0) (hdue : ∀ m, m < n → tickDue s0 tick m) :
    (historyAfter s0 tick n).historyIndex = n % 24 ∧
    ∀ k, 1 ≤ k → k ≤ n → n < k + 24 →
      slotHolds (historyAfter s0 tick n) (k % 24) (tick k) := by
  induction n with
  | zero =>
    refine ⟨h0, ?_⟩
    intro k h1 h2
    omega
  | succ n ih =>
    obtain ⟨hi, hv⟩ := ih (fun m hm => hdue m (by omega))
    obtain ⟨hidx, -, hth⟩ := historyAfter_succ_due s0 tick n (hdue n (by omega))
    rw [hi] at hidx hth
    refine ⟨by rw [hidx]; omega, ?_⟩
    intro k h1 h2 h3
    by_cases hk : k = n + 1
    · subst hk
      unfold slotHolds
      rw [hth, hth, hth]
      have e : (n % 24 + 1) % 24 = (n + 1) % 24 := by omega
      rw [e]
      refine ⟨by rw [if_pos rfl], ?_, ?_⟩
      · rw [if_neg (by omega), if_pos rfl]
      · rw [if_neg (by omega), if_neg (by omega), if_pos rfl]
    · obtain ⟨a, b, c⟩ := hv k h1 (by omega) (by omega)
      unfold slotHolds
      rw [hth, hth, hth]
      refine ⟨?_, ?_, ?_⟩
      · rw [if_neg (by omega), if_neg (by omega), if_neg (by omega)]; exact a
      · rw [if_neg (by omega), if_neg (by omega), if_neg (by omega)]; exact b
      · rw [if_neg (by omega), if_neg (by omega), if_neg (by omega)]; exact c

theorem hourlyTick_due (m : Nat) :
    (historyAfter initialState hourlyTick m).lastHistoryUpdate =
      millis (m * HISTORY_UPDATE_INTERVAL) ∧
    tickDue initialState hourlyTick m := by
  have step : ∀ k, (historyAfter initialState hourlyTick k).lastHistoryUpdate =
      millis (k * HISTORY_UPDATE_INTERVAL) → tickDue initialState hourlyTick k := by
    intro k hk
    unfold tickDue
    rw [hk]
    show HISTORY_UPDATE_INTERVAL ≤
      usub (millis ((k + 1) * HISTORY_UPDATE_INTERVAL)) (millis (k * HISTORY_UPDATE_INTERVAL))
    rw [usub_millis _ _ (Nat.mul_le_mul_right _ (Nat.le_succ k))]
    unfold HISTORY_UPDATE_INTERVAL ULONG_RANGE
    omega
  induction m with
  | zero =>
    have h : (historyAfter initialState hourlyTick 0).lastHistoryUpdate =
        millis (0 * HISTORY_UPDATE_INTERVAL) := by
      simp [historyAfter, initialState, millis]
    exact ⟨h, step 0 h⟩
  | succ m ih =>
    have h := (historyAfter_succ_due initialState hourlyTick m ih.2).2.1
    exact ⟨h, step (m + 1) h⟩

/-- C11. From a buffer with `historyIndex = 0`, after `n ≥ 24` due history
updates with samples `tick 1, …, tick n`: `historyIndex = n % 24`; every one of
the 24 most recent samples `tick k` (`n - 23 ≤ k ≤ n`) is held by slot
`k % 24`, and every slot holds exactly one of them. The next due update
advances the index by one modulo 24, to the slot that held the oldest sample
`tick (n - 23)`, writes `tick (n + 1)` there and changes no entry of any
other slot. -/
theorem history_buffer_last_24 (s0 : State) (tick : Nat → HistoryTick) (n : Nat)
    (h0 : s0.historyIndex = 0) (hn : 24 ≤ n)
    (hdue : ∀ m, m < n + 1 → tickDue s0 tick m) :
    (historyAfter s0 tick n).historyIndex = n % 24 ∧
    (∀ k, n - 23 ≤ k → k ≤ n → slotHolds (historyAfter s0 tick n) (k % 24) (tick k)) ∧
    (∀ p, p < 24 → ∃ k, n - 23 ≤ k ∧ k ≤ n ∧ k % 24 = p ∧
      ∀ k2, n - 23 ≤ k2 → k2 ≤ n → k2 % 24 = p → k2 = k) ∧
    (historyAfter s0 tick (n + 1)).historyIndex =
      ((historyAfter s0 tick n).historyIndex + 1) % 24 ∧
    (historyAfter s0 tick (n + 1)).historyIndex = (n - 23) % 24 ∧
    slotHolds (historyAfter s0 tick (n + 1)) ((n - 23) % 24) (tick (n + 1)) ∧
    (∀ i, i / 3 ≠ (n - 23) % 24 →
      (historyAfter s0 tick (n + 1)).tripleHistory i =
        (historyAfter s0 tick n).tripleHistory i) := by
  obtain ⟨hi, hv⟩ := historyAfter_spec s0 tick n h0 (fun m hm => hdue m (by omega))
  obtain ⟨hi1, hv1⟩ := historyAfter_spec s0 tick (n + 1) h0 hdue
  obtain ⟨hidx, -, hth⟩ := historyAfter_succ_due s0 tick n (hdue n (by omega))
  have e : (n + 1) % 24 = (n - 23) % 24 := by omega
  refine ⟨hi, ?_, ?_, hidx, by rw [hi1, e], ?_, ?_⟩
  · intro k h1 h2
    exact hv k (by omega) h2 (by omega)
  · intro p hp
    exact ⟨n - (n + 24 - p) % 24, by omega, by omega, by omega, by intro k2 _ _ _; omega⟩
  · rw [← e]
    exact hv1 (n + 1) (by omega) (le_refl _) (by omega)
  · intro i hne
    rw [hth, hi]
    rw [if_neg (by omega), if_neg (by omega), if_neg (by omega)]

/-- C11 for hourly samples `1, 2, …` from the initial state, at `n = 24`: the
buffer holds samples 1..24 and the 25th update overwrites slot 1, which held
sample 1. -/
theorem history_buffer_last_24_witness :
    initialState.historyIndex = 0 ∧ 24 ≤ 24 ∧
    (∀ m, m < 24 + 1 → tickDue initialState hourlyTick m) ∧
    slotHolds (historyAfter initialState hourlyTick 24) (1 % 24) (hourlyTick 1) ∧
    slotHolds (historyAfter initialState hourlyTick 25) ((24 - 23) % 24) (hourlyTick 25) :=
  ⟨rfl, le_refl _, fun m _ => (hourlyTick_due m).2,
    (history_buffer_last_24 initialState hourlyTick 24 rfl (le_refl _)
      (fun m _ => (hourlyTick_due m).2)).2.1 1 (by norm_num) (by norm_num),
    (history_buffer_last_24 initialState hourlyTick 24 rfl (le_refl _)
      (fun m _ => (hourlyTick_due m).2)).2.2.2.2.2.1⟩

/-! ## Daily usage tracker -/

/-- C12. For every state and every observed day of month `d` in 1..31, with the
time source available: `checkAndResetDailyUsage` changes no field other than
`dailyWaterUsed` and `lastDay`; `dailyWaterUsed` is unchanged when `lastDay`
is unset (-1) or equals `d` and becomes 0 when `lastDay` is set and differs
from `d`; `lastDay` becomes `d` and `totalWaterUsed` is unchanged in every
case; a second check with the same `d` changes nothing. -/
theorem checkAndResetDailyUsage_spec (d : Int) (s : State) (hd1 : 1 ≤ d) (hd31 : d ≤ 31) :
    checkAndResetDailyUsage true d s =
      { s with
        dailyWaterUsed := (checkAndResetDailyUsage true d s).dailyWaterUsed
        lastDay := d } ∧
    (s.lastDay = -1 ∨ s.lastDay = d →
      (checkAndResetDailyUsage true d s).dailyWaterUsed = s.dailyWaterUsed) ∧
    (s.lastDay ≠ -1 ∧ s.lastDay ≠ d →
      (checkAndResetDailyUsage true d s).dailyWaterUsed = 0) ∧
    (checkAndResetDailyUsage true d s).lastDay = d ∧
    (checkAndResetDailyUsage true d s).totalWaterUsed = s.totalWaterUsed ∧
    checkAndResetDailyUsage true d (checkAndResetDailyUsage true d s) =
      checkAndResetDailyUsage true d s := by
  have hd : d ≠ -1 := by omega
  have hfirst : ∀ x : State, x.lastDay = -1 →
      checkAndResetDailyUsage true d x = { x with lastDay := d } := by
    intro x hx
    unfold checkAndResetDailyUsage
    simp only [Bool.not_true, Bool.false_eq_true, if_false]
    rw [if_pos (Or.inl hx), if_neg (not_not.mpr hx)]
  have hsame : ∀ x : State, x.lastDay = d → checkAndResetDailyUsage true d x = x := by
    intro x hx
    unfold checkAndResetDailyUsage
    simp only [Bool.not_true, Bool.false_eq_true, if_false]
    rw [if_neg]
    rintro (h | h)
    · exact hd (hx.symm.trans h)
    · exact h hx.symm
  have hchange : ∀ x : State, x.lastDay ≠ -1 → x.lastDay ≠ d →
      checkAndResetDailyUsage true d x = { x with dailyWaterUsed := 0, lastDay := d } := by
    intro x hx1 hx2
    unfold checkAndResetDailyUsage
    simp only [Bool.not_true, Bool.false_eq_true, if_false]
    rw [if_pos (Or.inr (fun h => hx2 h.symm)), if_pos hx1]
    norm_num
  by_cases h1 : s.lastDay = -1
  · rw [hfirst s h1]
    exact ⟨rfl, fun _ => rfl, fun h => absurd h1 h.1, rfl, rfl, hsame _ rfl⟩
  · by_cases h2 : s.lastDay = d
    · rw [hsame s h2]
      refine ⟨by rw [← h2], fun _ => rfl, fun h => absurd h2 h.2, h2, rfl, hsame s h2⟩
    · rw [hchange s h1 h2]
      refine ⟨rfl, fun h => ?_, fun _ => rfl, rfl, rfl, hsame _ rfl⟩
      rcases h with h | h
      · exact absurd h h1
      · exact absurd h h2

/-- C12 on day 15 for a state that last observed day 14 with 1.5 L used. -/
theorem checkAndResetDailyUsage_spec_witness :
    (1 : Int) ≤ 15 ∧ (15 : Int) ≤ 31 ∧
    (checkAndResetDailyUsage true 15 dayChangeInput).lastDay = 15 ∧
    (checkAndResetDailyUsage true 15 dayChangeInput).dailyWaterUsed = 0 :=
  ⟨by norm_num, by norm_num,
    (checkAndResetDailyUsage_spec 15 dayChangeInput (by norm_num) (by norm_num)).2.2.2.1,
    (checkAndResetDailyUsage_spec 15 dayChangeInput (by norm_num) (by norm_num)).2.2.1
      ⟨by norm_num [dayChangeInput], by norm_num [dayChangeInput]⟩⟩

/-! ## Fertilizer advisory -/

theorem truncToInt_intCast (n : Int) : truncToInt (n : ℚ) = n := by
  unfold truncToInt
  split_ifs
  · exact Int.floor_intCast n
  · exact Int.ceil_intCast n

theorem truncToInt_range (t : ℚ) (h21 : 21 ≤ t) (h35 : t < 35) :
    20 < truncToInt t ∧ truncToInt t < 35 := by
  unfold truncToInt
  rw [if_pos (by linarith)]
  constructor
  · have : (21 : Int) ≤ ⌊t⌋ := Int.le_floor.mpr (by exact_mod_cast h21)
    omega
  · exact Int.floor_lt.mpr (by exact_mod_cast h35)

theorem getFertilizerRecommendation_rule2 (s : State)
    (hs1 : 35 ≤ s.soilMoisturePercent) (hs2 : s.soilMoisturePercent ≤ 60)
    (ht1 : 20 < truncToInt s.temperature) (ht2 : truncToInt s.temperature < 35) :
    (getFertilizerRecommendation s).fertilizerRecommendation =
      if s.farmerProfile.soilType = "Sandy" then "Light N (Urea) dose. Sandy soil leaks."
      else "Moderate NPK (20-10-10) for growth." := by
  unfold getFertilizerRecommendation
  simp only
  rw [if_neg (by omega), if_pos ⟨hs1, hs2, ht1, ht2⟩]
  split_ifs <;> rfl

/-- C13, counterexample. With soil moisture 50 % and humidity 50 %, the
temperature 20.5 °C lies strictly between 20 and 35, yet the advisory is the
maintenance text of rule 5: the code compares `(int)temperature = 20`. -/
theorem fertilizer_rule2_counterexample :
    35 ≤ mildTemperatureInput.soilMoisturePercent ∧
    mildTemperatureInput.soilMoisturePercent ≤ 60 ∧
    20 < mildTemperatureInput.temperature ∧ mildTemperatureInput.temperature < 35 ∧
    (getFertilizerRecommendation mildTemperatureInput).fertilizerRecommendation =
      "Optimal conditions. Maintenance NPK (15-15-15)." ∧
    (getFertilizerRecommendation mildTemperatureInput).fertilizerRecommendation ≠
      "Light N (Urea) dose. Sandy soil leaks." ∧
    (getFertilizerRecommendation mildTemperatureInput).fertilizerRecommendation ≠
      "Moderate NPK (20-10-10) for growth." := by
  have h : (getFertilizerRecommendation mildTemperatureInput).fertilizerRecommendation =
      "Optimal conditions. Maintenance NPK (15-15-15)." := by
    norm_num [getFertilizerRecommendation, mildTemperatureInput, initialState, truncToInt]
  rw [h]
  refine ⟨?_, ?_, ?_, ?_, rfl, by decide, by decide⟩ <;>
    norm_num [mildTemperatureInput, initialState]

/-- C13, amended. For every soil reading with 35 ≤ soil ≤ 60 and every
temperature reading `t` with 21 ≤ t < 35 (the readings whose integer part
`(int)t` lies strictly between 20 and 35), `getFertilizerRecommendation`
yields the rule-2 advisory, whatever the humidity is. -/
theorem fertilizer_rule2_applies (s : State)
    (hs1 : 35 ≤ s.soilMoisturePercent) (hs2 : s.soilMoisturePercent ≤ 60)
    (ht1 : 21 ≤ s.temperature) (ht2 : s.temperature < 35) :
    (getFertilizerRecommendation s).fertilizerRecommendation =
      (if s.farmerProfile.soilType = "Sandy" then "Light N (Urea) dose. Sandy soil leaks."
      else "Moderate NPK (20-10-10) for growth.") ∧
    getFertilizerRecommendation s =
      { s with
        fertilizerRecommendation := (getFertilizerRecommendation s).fertilizerRecommendation } := by
  obtain ⟨h1, h2⟩ := truncToInt_range s.temperature ht1 ht2
  refine ⟨getFertilizerRecommendation_rule2 s hs1 hs2 h1 h2, ?_⟩
  unfold getFertilizerRecommendation
  simp only
  split_ifs <;> rfl

/-- C13 amended, at soil 50 %, 25 °C and humidity 50 %. -/
theorem fertilizer_rule2_applies_witness :
    35 ≤ redSoilInput.soilMoisturePercent ∧ redSoilInput.soilMoisturePercent ≤ 60 ∧
    21 ≤ redSoilInput.temperature ∧ redSoilInput.temperature < 35 ∧
    (getFertilizerRecommendation redSoilInput).fertilizerRecommendation =
      (if redSoilInput.farmerProfile.soilType = "Sandy" then
        "Light N (Urea) dose. Sandy soil leaks."
      else "Moderate NPK (20-10-10) for growth.") := by
  have h1 : 35 ≤ redSoilInput.soilMoisturePercent := by norm_num [redSoilInput, initialState]
  have h2 : redSoilInput.soilMoisturePercent ≤ 60 := by norm_num [redSoilInput, initialState]
  have h3 : 21 ≤ redSoilInput.temperature := by norm_num [redSoilInput, initialState]
  have h4 : redSoilInput.temperature < 35 := by norm_num [redSoilInput, initialState]
  exact ⟨h1, h2, h3, h4, (fertilizer_rule2_applies redSoilInput h1 h2 h3 h4).1⟩

/-- C19, counterexample. For the soil type "Red" of the default profile, at
soil 50 % and 25 °C rule 2 applies and the water budget uses the draining
soil factor 1.15, yet the advisory is the moderate NPK text, not the lighter
nitrogen dose. -/
theorem fertilizer_draining_counterexample :
    redSoilInput.farmerProfile.soilType = "Red" ∧
    35 ≤ redSoilInput.soilMoisturePercent ∧ redSoilInput.soilMoisturePercent ≤ 60 ∧
    20 < redSoilInput.temperature ∧ redSoilInput.temperature < 35 ∧
    (ai_water_budgeting_deficit redSoilInput).predictedWaterNeedLiters = 0.5 * 1.0 * 1.15 ∧
    (getFertilizerRecommendation redSoilInput).fertilizerRecommendation =
      "Moderate NPK (20-10-10) for growth." ∧
    (getFertilizerRecommendation redSoilInput).fertilizerRecommendation ≠
      "Light N (Urea) dose. Sandy soil leaks." := by
  have h : (getFertilizerRecommendation redSoilInput).fertilizerRecommendation =
      "Moderate NPK (20-10-10) for growth." := by
    rw [getFertilizerRecommendation_rule2 redSoilInput
      (by norm_num [redSoilInput, initialState]) (by norm_num [redSoilInput, initialState])
      (by norm_num [redSoilInput, initialState, truncToInt])
      (by norm_num [redSoilInput, initialState, truncToInt])]
    rw [if_neg (by decide)]
  rw [h]
  refine ⟨rfl, ?_, ?_, ?_, ?_, ?_, rfl, by decide⟩
  · norm_num [redSoilInput, initialState]
  · norm_num [redSoilInput, initialState]
  · norm_num [redSoilInput, initialState]
  · norm_num [redSoilInput, initialState]
  · norm_num [ai_water_budgeting_deficit, redSoilInput, initialState, cropNeed_snd]

/-- C19, amended. When fertilizer rule 2 applies (35 ≤ soil ≤ 60 and
20 < `(int)temperature` < 35), the advisory is the lighter nitrogen dose
exactly for the soil type "Sandy" and the moderate NPK advisory for every
other soil type, "Red" included. -/
theorem fertilizer_rule2_soil_type (s : State)
    (hs1 : 35 ≤ s.soilMoisturePercent) (hs2 : s.soilMoisturePercent ≤ 60)
    (ht1 : 20 < truncToInt s.temperature) (ht2 : truncToInt s.temperature < 35) :
    ((getFertilizerRecommendation s).fertilizerRecommendation =
        "Light N (Urea) dose. Sandy soil leaks." ↔ s.farmerProfile.soilType = "Sandy") ∧
    (s.farmerProfile.soilType ≠ "Sandy" →
      (getFertilizerRecommendation s).fertilizerRecommendation =
        "Moderate NPK (20-10-10) for growth.") := by
  rw [getFertilizerRecommendation_rule2 s hs1 hs2 ht1 ht2]
  constructor
  · constructor
    · intro h
      by_contra hne
      rw [if_neg hne] at h
      exact absurd h (by decide)
    · intro h
      rw [if_pos h]
  · intro h
    rw [if_neg h]

/-- C19 amended, at soil 50 %, 25 °C, for the soil type "Red". -/
theorem fertilizer_rule2_soil_type_witness :
    35 ≤ redSoilInput.soilMoisturePercent ∧ redSoilInput.soilMoisturePercent ≤ 60 ∧
    20 < truncToInt redSoilInput.temperature ∧ truncToInt redSoilInput.temperature < 35 ∧
    (getFertilizerRecommendation redSoilInput).fertilizerRecommendation =
      "Moderate NPK (20-10-10) for growth." := by
  have h1 : 35 ≤ redSoilInput.soilMoisturePercent := by norm_num [redSoilInput, initialState]
  have h2 : redSoilInput.soilMoisturePercent ≤ 60 := by norm_num [redSoilInput, initialState]
  have h3 : 20 < truncToInt redSoilInput.temperature := by
    norm_num [redSoilInput, initialState, truncToInt]
  have h4 : truncToInt redSoilInput.temperature < 35 := by
    norm_num [redSoilInput, initialState, truncToInt]
  exact ⟨h1, h2, h3, h4, (fertilizer_rule2_soil_type redSoilInput h1 h2 h3 h4).2 (by decide)⟩
/-- C20. For every integer soil reading and all whole-number temperature and
humidity readings `T` and `H`, the advisory `getFertilizerRecommendation`
leaves is a text of the first rule, in the order 1..5, whose condition holds,
and no other field changes. -/
theorem fertilizer_first_match (s : State) (T H : Int)
    (hT : s.temperature = (T : ℚ)) (hH : s.humidity = (H : ℚ)) :
    (getFertilizerRecommendation s).fertilizerRecommendation ∈
      fertilizerAdvisories (firstFertilizerRule s.soilMoisturePercent T H) ∧
    getFertilizerRecommendation s =
      { s with
        fertilizerRecommendation := (getFertilizerRecommendation s).fertilizerRecommendation } := by
  constructor
  · unfold getFertilizerRecommendation firstFertilizerRule
    simp only [hT, hH, truncToInt_intCast]
    by_cases h1 : s.soilMoisturePercent < 35
    · simp [List.find?, fertilizerRuleHolds, fertilizerAdvisories, h1]
    · by_cases h2 : s.soilMoisturePercent ≥ 35 ∧ s.soilMoisturePercent ≤ 60 ∧ T > 20 ∧ T < 35
      · rw [if_neg h1, if_pos h2]
        have h2' : 35 ≤ s.soilMoisturePercent ∧ s.soilMoisturePercent ≤ 60 ∧ 20 < T ∧ T < 35 := h2
        split_ifs <;> simp [List.find?, fertilizerRuleHolds, fertilizerAdvisories, h1, h2']
      · have h2' : ¬ (35 ≤ s.soilMoisturePercent ∧ s.soilMoisturePercent ≤ 60 ∧ 20 < T ∧ T < 35) := h2
        rw [if_neg h1, if_neg h2]
        by_cases h3 : T ≥ 35 ∧ H < 50
        · rw [if_pos h3]
          simp [List.find?, fertilizerRuleHolds, fertilizerAdvisories, h1, h2', h3]
        · rw [if_neg h3]
          by_cases h4 : s.soilMoisturePercent > 70 ∨ H > 80
          · rw [if_pos h4]
            simp [List.find?, fertilizerRuleHolds, fertilizerAdvisories, h1, h2', h3, h4]
          · rw [if_neg h4]
            simp [List.find?, fertilizerRuleHolds, fertilizerAdvisories, h1, h2', h3, h4]
  · unfold getFertilizerRecommendation
    simp only
    split_ifs <;> rfl

/-- C20 at the two readings named by the spec: soil 30 %, 25 °C, humidity 50 %
gives the urgent-watering advisory of rule 1; soil 80 %, 36 °C, humidity 40 %
satisfies rules 3 and 4 and gives the phosphorus advisory of rule 3. -/
theorem fertilizer_first_match_witness :
    (drySoilInput.temperature = ((25 : Int) : ℚ) ∧ drySoilInput.humidity = ((50 : Int) : ℚ) ∧
      firstFertilizerRule drySoilInput.soilMoisturePercent 25 50 = 1 ∧
      (getFertilizerRecommendation drySoilInput).fertilizerRecommendation ∈
        fertilizerAdvisories 1) ∧
    (hotWetInput.temperature = ((36 : Int) : ℚ) ∧ hotWetInput.humidity = ((40 : Int) : ℚ) ∧
      fertilizerRuleHolds hotWetInput.soilMoisturePercent 36 40 4 = true ∧
      firstFertilizerRule hotWetInput.soilMoisturePercent 36 40 = 3 ∧
      (getFertilizerRecommendation hotWetInput).fertilizerRecommendation ∈
        fertilizerAdvisories 3) := by
  have a1 : drySoilInput.temperature = ((25 : Int) : ℚ) := by
    norm_num [drySoilInput, initialState]
  have a2 : drySoilInput.humidity = ((50 : Int) : ℚ) := by
    norm_num [drySoilInput, initialState]
  have a3 : firstFertilizerRule drySoilInput.soilMoisturePercent 25 50 = 1 := by decide
  have b1 : hotWetInput.temperature = ((36 : Int) : ℚ) := by
    norm_num [hotWetInput, initialState]
  have b2 : hotWetInput.humidity = ((40 : Int) : ℚ) := by
    norm_num [hotWetInput, initialState]
  have b3 : firstFertilizerRule hotWetInput.soilMoisturePercent 36 40 = 3 := by decide
  have w1 := (fertilizer_first_match drySoilInput 25 50 a1 a2).1
  have w2 := (fertilizer_first_match hotWetInput 36 40 b1 b2).1
  rw [a3] at w1
  rw [b3] at w2
  exact ⟨⟨a1, a2, a3, w1⟩, ⟨b1, b2, by decide, b3, w2⟩⟩

/-! ## Rain override and deficit rule -/

theorem ai_water_budgeting_deficit_frame (s : State) :
    ai_water_budgeting_deficit s =
      { s with
        predictedWaterNeedLiters := (ai_water_budgeting_deficit s).predictedWaterNeedLiters
        irrigationDurationS := (ai_water_budgeting_deficit s).irrigationDurationS
        aiRecommendation := (ai_water_budgeting_deficit s).aiRecommendation } := by
  unfold ai_water_budgeting_deficit
  simp only
  split_ifs <;> rfl

theorem ai_water_budgeting_rain_duration (c : AlertClock) (s : State) :
    (ai_water_budgeting_rain c s).irrigationDurationS =
      if s.rain1h_mm > 0.5 ∨ s.rainProb_percent > 75 then
        (if s.soilMoisturePercent < 45 ∧ s.irrigationDurationS > 0 then
          s.irrigationDurationS / 2 else 0)
      else s.irrigationDurationS := by
  unfold ai_water_budgeting_rain
  norm_num
  split_ifs
  · rw [sendAlert_irrigationDurationS]
    show s.irrigationDurationS * (1 / 2) = s.irrigationDurationS / 2
    ring
  · rw [sendAlert_irrigationDurationS]
  · rfl

theorem sendAlert_alert_fields_congr (c : AlertClock) (title message : String) (s1 s2 : State)
    (h1 : s1.lastAlert = s2.lastAlert) (h2 : s1.lastAlertTime = s2.lastAlertTime)
    (h3 : s1.alertHistory = s2.alertHistory)
    (h4 : s1.alertHistoryCount = s2.alertHistoryCount)
    (h5 : s1.telegramOutbox = s2.telegramOutbox)
    (h6 : s1.TELEGRAM_CHAT_ID = s2.TELEGRAM_CHAT_ID) :
    (sendAlert c title message s1).lastAlert = (sendAlert c title message s2).lastAlert ∧
    (sendAlert c title message s1).lastAlertTime =
      (sendAlert c title message s2).lastAlertTime ∧
    (sendAlert c title message s1).alertHistory =
      (sendAlert c title message s2).alertHistory ∧
    (sendAlert c title message s1).alertHistoryCount =
      (sendAlert c title message s2).alertHistoryCount ∧
    (sendAlert c title message s1).telegramOutbox =
      (sendAlert c title message s2).telegramOutbox := by
  unfold sendAlert
  simp only [h2, h3, h4, h5, h6]
  split_ifs <;> first | exact ⟨h1, h2, h3, h4, h5⟩ | exact ⟨rfl, rfl, rfl, rfl, rfl⟩

theorem ai_water_budgeting_alert_fields (c : AlertClock) (s : State) :
    (ai_water_budgeting c s).lastAlert =
      (ai_water_budgeting_rain c (ai_water_budgeting_deficit s)).lastAlert ∧
    (ai_water_budgeting c s).lastAlertTime =
      (ai_water_budgeting_rain c (ai_water_budgeting_deficit s)).lastAlertTime ∧
    (ai_water_budgeting c s).alertHistory =
      (ai_water_budgeting_rain c (ai_water_budgeting_deficit s)).alertHistory ∧
    (ai_water_budgeting c s).alertHistoryCount =
      (ai_water_budgeting_rain c (ai_water_budgeting_deficit s)).alertHistoryCount ∧
    (ai_water_budgeting c s).telegramOutbox =
      (ai_water_budgeting_rain c (ai_water_budgeting_deficit s)).telegramOutbox ∧
    (ai_water_budgeting c s).aiRecommendation =
      (ai_water_budgeting_rain c (ai_water_budgeting_deficit s)).aiRecommendation := by
  unfold ai_water_budgeting
  simp only
  split_ifs <;> exact ⟨rfl, rfl, rfl, rfl, rfl, rfl⟩

theorem ai_water_budgeting_rain_alert (c : AlertClock) (s0 s : State)
    (h1 : s.lastAlert = s0.lastAlert) (h2 : s.lastAlertTime = s0.lastAlertTime)
    (h3 : s.alertHistory = s0.alertHistory)
    (h4 : s.alertHistoryCount = s0.alertHistoryCount)
    (h5 : s.telegramOutbox = s0.telegramOutbox)
    (h6 : s.TELEGRAM_CHAT_ID = s0.TELEGRAM_CHAT_ID)
    (hrain : s.rain1h_mm > 0.5 ∨ s.rainProb_percent > 75.0) :
    (ai_water_budgeting_rain c s).lastAlert =
      (sendAlert c "üåß Rain Predicted"
        "Irrigation adjusted/paused due to weather forecast." s0).lastAlert ∧
    (ai_water_budgeting_rain c s).lastAlertTime =
      (sendAlert c "üåß Rain Predicted"
        "Irrigation adjusted/paused due to weather forecast." s0).lastAlertTime ∧
    (ai_water_budgeting_rain c s).alertHistory =
      (sendAlert c "üåß Rain Predicted"
        "Irrigation adjusted/paused due to weather forecast." s0).alertHistory ∧
    (ai_water_budgeting_rain c s).alertHistoryCount =
      (sendAlert c "üåß Rain Predicted"
        "Irrigation adjusted/paused due to weather forecast." s0).alertHistoryCount ∧
    (ai_water_budgeting_rain c s).telegramOutbox =
      (sendAlert c "üåß Rain Predicted"
        "Irrigation adjusted/paused due to weather forecast." s0).telegramOutbox := by
  unfold ai_water_budgeting_rain
  rw [if_pos hrain]
  split_ifs
  · exact sendAlert_alert_fields_congr c _ _ _ s0 h1 h2 h3 h4 h5 h6
  · exact sendAlert_alert_fields_congr c _ _ _ s0 h1 h2 h3 h4 h5 h6

theorem ai_water_budgeting_deficit_met (s : State)
    (h : ¬ ((50 : ℚ) - (s.soilMoisturePercent : ℚ) > 5)) :
    (ai_water_budgeting_deficit s).aiRecommendation =
      "Soil optimal, irrigation paused. Target: 50%" := by
  unfold ai_water_budgeting_deficit
  simp only [cropNeed_snd, Int.cast_ofNat]
  have h2 : ¬ ((50 : ℚ) - (s.soilMoisturePercent : ℚ) > 5.0) := by
    norm_num at h ⊢
    exact h
  rw [if_neg h2]
  show "Soil optimal, irrigation paused. Target: " ++ toString (50 : Int) ++ "%" = _
  decide

/-- C14. Let `d` be the duration `ai_water_budgeting` computes from the moisture
deficit. The duration it leaves is `d / 2` when rain is forecast
(`rain1h_mm > 0.5` or `rainProb_percent > 75`), `soilMoisturePercent < 45` and
`d > 0`; it is 0 when rain is forecast otherwise; it is `d` when no rain is
forecast. When rain is forecast the alert fields are those the rain alert
`sendAlert` call leaves (the rain text, if the throttle lets it pass); when
no rain is forecast the alert fields are unchanged. In the scenario of the
spec the rain block turns a computed 40 s into 20 s. -/
theorem rain_override (c : AlertClock) (s : State) :
    ((ai_water_budgeting c s).irrigationDurationS =
      if s.rain1h_mm > 0.5 ∨ s.rainProb_percent > 75 then
        (if s.soilMoisturePercent < 45 ∧ (ai_water_budgeting_deficit s).irrigationDurationS > 0
          then (ai_water_budgeting_deficit s).irrigationDurationS / 2 else 0)
      else (ai_water_budgeting_deficit s).irrigationDurationS) ∧
    ((ai_water_budgeting c s).lastAlert =
      if s.rain1h_mm > 0.5 ∨ s.rainProb_percent > 75 then
        (sendAlert c "üåß Rain Predicted"
          "Irrigation adjusted/paused due to weather forecast." s).lastAlert
      else s.lastAlert) ∧
    ((ai_water_budgeting c s).lastAlertTime =
      if s.rain1h_mm > 0.5 ∨ s.rainProb_percent > 75 then
        (sendAlert c "üåß Rain Predicted"
          "Irrigation adjusted/paused due to weather forecast." s).lastAlertTime
      else s.lastAlertTime) ∧
    ((ai_water_budgeting c s).alertHistory =
      if s.rain1h_mm > 0.5 ∨ s.rainProb_percent > 75 then
        (sendAlert c "üåß Rain Predicted"
          "Irrigation adjusted/paused due to weather forecast." s).alertHistory
      else s.alertHistory) ∧
    ((ai_water_budgeting c s).alertHistoryCount =
      if s.rain1h_mm > 0.5 ∨ s.rainProb_percent > 75 then
        (sendAlert c "üåß Rain Predicted"
          "Irrigation adjusted/paused due to weather forecast." s).alertHistoryCount
      else s.alertHistoryCount) ∧
    ((ai_water_budgeting c s).telegramOutbox =
      if s.rain1h_mm > 0.5 ∨ s.rainProb_percent > 75 then
        (sendAlert c "üåß Rain Predicted"
          "Irrigation adjusted/paused due to weather forecast." s).telegramOutbox
      else s.telegramOutbox) ∧
    ((s.rain1h_mm > 0.5 ∨ s.rainProb_percent > 75) →
      ALERT_THROTTLE_MS ≤ usub (millis c.tCheck) s.lastAlertTime →
      (ai_water_budgeting c s).lastAlert =
        "üåß Rain Predicted: Irrigation adjusted/paused due to weather forecast.") ∧
    (ai_water_budgeting_rain ⟨0, 0⟩ rainScenarioInput).irrigationDurationS = 20 := by
  have hf := ai_water_budgeting_deficit_frame s
  have hr1 : (ai_water_budgeting_deficit s).rain1h_mm = s.rain1h_mm := by rw [hf]
  have hr2 : (ai_water_budgeting_deficit s).rainProb_percent = s.rainProb_percent := by rw [hf]
  have hsoil : (ai_water_budgeting_deficit s).soilMoisturePercent = s.soilMoisturePercent := by
    rw [hf]
  have hdur : (ai_water_budgeting c s).irrigationDurationS =
      if s.rain1h_mm > 0.5 ∨ s.rainProb_percent > 75 then
        (if s.soilMoisturePercent < 45 ∧ (ai_water_budgeting_deficit s).irrigationDurationS > 0
          then (ai_water_budgeting_deficit s).irrigationDurationS / 2 else 0)
      else (ai_water_budgeting_deficit s).irrigationDurationS := by
    rw [ai_water_budgeting_irrigationDurationS, ai_water_budgeting_rain_duration, hr1, hr2, hsoil]
  obtain ⟨e1, e2, e3, e4, e5, -⟩ := ai_water_budgeting_alert_fields c s
  have hex : (ai_water_budgeting_rain ⟨0, 0⟩ rainScenarioInput).irrigationDurationS = 20 := by
    rw [ai_water_budgeting_rain_duration]
    norm_num [rainScenarioInput, initialState]
  by_cases hrain : s.rain1h_mm > 0.5 ∨ s.rainProb_percent > 75
  · have hrain2 : (ai_water_budgeting_deficit s).rain1h_mm > 0.5 ∨
        (ai_water_budgeting_deficit s).rainProb_percent > 75.0 := by
      rw [hr1, hr2]
      norm_num at hrain ⊢
      exact hrain
    obtain ⟨a1, a2, a3, a4, a5⟩ := ai_water_budgeting_rain_alert c s
      (ai_water_budgeting_deficit s) (by rw [hf]) (by rw [hf]) (by rw [hf]) (by rw [hf])
      (by rw [hf]) (by rw [hf]) hrain2
    simp only [if_pos hrain]
    refine ⟨by rw [hdur, if_pos hrain], e1.trans a1, e2.trans a2, e3.trans a3, e4.trans a4,
      e5.trans a5, ?_, hex⟩
    intro _ hacc
    rw [e1, a1, (sendAlert_accepted_history c _ _ s (by omega)).1]
    decide
  · have hrain2 : ¬ ((ai_water_budgeting_deficit s).rain1h_mm > 0.5 ∨
        (ai_water_budgeting_deficit s).rainProb_percent > 75.0) := by
      rw [hr1, hr2]
      norm_num at hrain ⊢
      exact hrain
    have hno : ai_water_budgeting_rain c (ai_water_budgeting_deficit s) =
        ai_water_budgeting_deficit s := by
      unfold ai_water_budgeting_rain
      rw [if_neg hrain2]
    rw [hno] at e1 e2 e3 e4 e5
    simp only [if_neg hrain]
    refine ⟨by rw [hdur, if_neg hrain], ?_, ?_, ?_, ?_, ?_, fun h => absurd h hrain, hex⟩
    · rw [e1, hf]
    · rw [e2, hf]
    · rw [e3, hf]
    · rw [e4, hf]
    · rw [e5, hf]

/-- C15. With no rain forecast, for every soil reading `ai_water_budgeting`
leaves a duration > 0 exactly when the deficit `50 - soilMoisturePercent`
exceeds 5; otherwise the duration is 0 and the recommendation text states
that the 50 % target is met. -/
theorem deficit_decides_duration (c : AlertClock) (s : State)
    (hnr : ¬ (s.rain1h_mm > 0.5 ∨ s.rainProb_percent > 75)) :
    (0 < (ai_water_budgeting c s).irrigationDurationS ↔ 50 - s.soilMoisturePercent > 5) ∧
    (¬ (50 - s.soilMoisturePercent > 5) →
      (ai_water_budgeting c s).irrigationDurationS = 0 ∧
      (ai_water_budgeting c s).aiRecommendation =
        "Soil optimal, irrigation paused. Target: 50%") := by
  have hf := ai_water_budgeting_deficit_frame s
  have hrain2 : ¬ ((ai_water_budgeting_deficit s).rain1h_mm > 0.5 ∨
      (ai_water_budgeting_deficit s).rainProb_percent > 75.0) := by
    have hr1 : (ai_water_budgeting_deficit s).rain1h_mm = s.rain1h_mm := by rw [hf]
    have hr2 : (ai_water_budgeting_deficit s).rainProb_percent = s.rainProb_percent := by
      rw [hf]
    rw [hr1, hr2]
    norm_num at hnr ⊢
    exact hnr
  have hno : ai_water_budgeting_rain c (ai_water_budgeting_deficit s) =
      ai_water_budgeting_deficit s := by
    unfold ai_water_budgeting_rain
    rw [if_neg hrain2]
  have hd : (ai_water_budgeting c s).irrigationDurationS =
      (ai_water_budgeting_deficit s).irrigationDurationS := by
    rw [ai_water_budgeting_irrigationDurationS, hno]
  have hrec := (ai_water_budgeting_alert_fields c s).2.2.2.2.2
  rw [hno] at hrec
  have hcast : ((50 : ℚ) - (s.soilMoisturePercent : ℚ) > 5) ↔ 50 - s.soilMoisturePercent > 5 := by
    constructor
    · intro h
      have : ((5 : Int) : ℚ) < ((50 - s.soilMoisturePercent : Int) : ℚ) := by
        push_cast
        linarith
      exact_mod_cast this
    · intro h
      have : ((5 : Int) : ℚ) < ((50 - s.soilMoisturePercent : Int) : ℚ) := by exact_mod_cast h
      push_cast at this
      linarith
  rw [hd, hrec, deficit_duration_eq]
  constructor
  · constructor
    · intro h
      by_contra hne
      rw [if_neg (fun h2 => hne (hcast.mp h2))] at h
      exact lt_irrefl _ h
    · intro h
      rw [if_pos (hcast.mpr h)]
      have := (constrain_mem
        (((50 : ℚ) - (s.soilMoisturePercent : ℚ)) * 0.01 / PUMP_FLOW_RATE) 5 60 (by norm_num)).1
      linarith
  · intro h
    have h2 : ¬ ((50 : ℚ) - (s.soilMoisturePercent : ℚ) > 5) := fun h3 => h (hcast.mp h3)
    exact ⟨by rw [if_neg h2], ai_water_budgeting_deficit_met s h2⟩

/-- C15 at the two scenarios of the spec: soil 30 % gives a duration > 0, soil
55 % gives duration 0. -/
theorem deficit_decides_duration_witness :
    ¬ (drySoilInput.rain1h_mm > 0.5 ∨ drySoilInput.rainProb_percent > 75) ∧
    0 < (ai_water_budgeting ⟨0, 0⟩ drySoilInput).irrigationDurationS ∧
    ¬ (manualRunReady.rain1h_mm > 0.5 ∨ manualRunReady.rainProb_percent > 75) ∧
    (ai_water_budgeting ⟨0, 0⟩ manualRunReady).irrigationDurationS = 0 := by
  have h1 : ¬ (drySoilInput.rain1h_mm > 0.5 ∨ drySoilInput.rainProb_percent > 75) := by
    norm_num [drySoilInput, initialState]
  have h2 : ¬ (manualRunReady.rain1h_mm > 0.5 ∨ manualRunReady.rainProb_percent > 75) := by
    norm_num [manualRunReady, initialState]
  exact ⟨h1,
    (deficit_decides_duration ⟨0, 0⟩ drySoilInput h1).1.mpr
      (by norm_num [drySoilInput, initialState]),
    h2,
    ((deficit_decides_duration ⟨0, 0⟩ manualRunReady h2).2
      (by norm_num [manualRunReady, initialState])).1⟩

/-! ## Manual commands and usage counters -/

theorem stopPump_autoMode (tStop : Nat) (s : State) :
    (stopPump tStop s).autoMode = s.autoMode := by
  unfold stopPump
  cases h : s.pumpState
  · simp
  · simp only [Bool.not_true, Bool.false_eq_true, if_false]
    split <;> rfl

theorem stopPump_off (tStop : Nat) (s : State) (h : s.pumpState = false) :
    stopPump tStop s = s := by
  unfold stopPump
  simp [h]

theorem stopPump_running (tStop : Nat) (s : State) (hrun : s.pumpState = true)
    (h0 : 0 < s.irrigationStartTime) :
    stopPump tStop s =
      { s with
        pumpPin := !RELAY_ACTIVE_STATE
        pumpState := false
        totalWaterUsed := s.totalWaterUsed +
          (usub (millis tStop) s.irrigationStartTime : ℚ) / 1000 * PUMP_FLOW_RATE
        dailyWaterUsed := s.dailyWaterUsed +
          (usub (millis tStop) s.irrigationStartTime : ℚ) / 1000 * PUMP_FLOW_RATE
        tankLevelLiters := constrain (s.tankLevelLiters -
          (usub (millis tStop) s.irrigationStartTime : ℚ) / 1000 * PUMP_FLOW_RATE)
          0 TANK_MAX_CAPACITY
        tankLevelPercent := constrain (s.tankLevelLiters -
          (usub (millis tStop) s.irrigationStartTime : ℚ) / 1000 * PUMP_FLOW_RATE)
          0 TANK_MAX_CAPACITY / TANK_MAX_CAPACITY * 100
        irrigationStartTime := 0 } := by
  unfold stopPump
  simp only [hrun, Bool.not_true, Bool.false_eq_true, if_false]
  rw [if_pos h0]
  norm_num

theorem stopPump_counters_le (tStop : Nat) (s : State) :
    s.totalWaterUsed ≤ (stopPump tStop s).totalWaterUsed ∧
    s.dailyWaterUsed ≤ (stopPump tStop s).dailyWaterUsed := by
  have hpos : (0 : ℚ) ≤
      (usub (millis tStop) s.irrigationStartTime : ℚ) / 1000 * PUMP_FLOW_RATE := by
    have : (0 : ℚ) ≤ PUMP_FLOW_RATE := by norm_num [PUMP_FLOW_RATE]
    positivity
  cases hp : s.pumpState
  · rw [stopPump_off tStop s hp]
    exact ⟨le_refl _, le_refl _⟩
  · by_cases h0 : 0 < s.irrigationStartTime
    · rw [stopPump_running tStop s hp h0]
      exact ⟨le_add_of_nonneg_right hpos, le_add_of_nonneg_right hpos⟩
    · have e : stopPump tStop s =
          { s with pumpPin := !RELAY_ACTIVE_STATE, pumpState := false,
                   irrigationStartTime := 0 } := by
        unfold stopPump
        simp only [hp, Bool.not_true, Bool.false_eq_true, if_false]
        rw [if_neg h0]
      rw [e]
      exact ⟨le_refl _, le_refl _⟩

/-- C16. In every state with `tankLevelPercent = tankLevelLiters /
TANK_MAX_CAPACITY * 100`: a manual start with `tankLevelPercent ≥ 10` sets
`autoMode` to false and leaves the pump running with planned duration 3600 s
and the current `millis()` as start time; a manual start with
`tankLevelPercent < 10` returns the state unchanged; a manual stop never
changes `autoMode`. -/
theorem manual_start_stop (tStart tStop : Nat) (c : AlertClock) (s : State)
    (hp : s.tankLevelPercent = s.tankLevelLiters / TANK_MAX_CAPACITY * 100) :
    (10 ≤ s.tankLevelPercent →
      (handleAPIPumpOn tStart c s).autoMode = false ∧
      (handleAPIPumpOn tStart c s).pumpState = true ∧
      (handleAPIPumpOn tStart c s).pumpPin = RELAY_ACTIVE_STATE ∧
      (handleAPIPumpOn tStart c s).irrigationDurationS = 3600 ∧
      (handleAPIPumpOn tStart c s).irrigationStartTime = millis tStart) ∧
    (s.tankLevelPercent < 10 → handleAPIPumpOn tStart c s = s) ∧
    (handleAPIPumpOff tStop s).autoMode = s.autoMode := by
  refine ⟨?_, ?_, stopPump_autoMode tStop s⟩
  · intro h10
    have hl : ¬ s.tankLevelLiters < 0.10 * TANK_MAX_CAPACITY := by
      rw [hp] at h10
      norm_num [TANK_MAX_CAPACITY] at h10 ⊢
      linarith
    unfold handleAPIPumpOn
    rw [if_neg (not_lt.mpr h10)]
    unfold startPump
    rw [if_neg hl]
    norm_num [MANUAL_IRRIGATION_DURATION_S]
  · intro hlt
    unfold handleAPIPumpOn
    rw [if_pos hlt]

/-- C16 for a tank holding 0.4 L (80 %): the manual start at uptime 100 s is
accepted. -/
theorem manual_start_stop_witness :
    manualRunReady.tankLevelPercent = manualRunReady.tankLevelLiters / TANK_MAX_CAPACITY * 100 ∧
    10 ≤ manualRunReady.tankLevelPercent ∧
    (handleAPIPumpOn 100000 ⟨100000, 100000⟩ manualRunReady).autoMode = false ∧
    (handleAPIPumpOn 100000 ⟨100000, 100000⟩ manualRunReady).pumpState = true := by
  have hp : manualRunReady.tankLevelPercent =
      manualRunReady.tankLevelLiters / TANK_MAX_CAPACITY * 100 := by
    norm_num [manualRunReady, initialState, TANK_MAX_CAPACITY]
  have h10 : 10 ≤ manualRunReady.tankLevelPercent := by
    norm_num [manualRunReady, initialState]
  have h := (manual_start_stop 100000 100000 ⟨100000, 100000⟩ manualRunReady hp).1 h10
  exact ⟨hp, h10, h.1, h.2.1⟩

/-- C17. For every running state whose start time `t0 = irrigationStartTime`
is positive, `stopPump` at a `millis()` reading `t ≥ t0` uses
`used = (t - t0) / 1000 * PUMP_FLOW_RATE` and leaves: the pump off,
`totalWaterUsed` and `dailyWaterUsed` each increased by `used`,
`tankLevelLiters = constrain (old litres - used) 0 TANK_MAX_CAPACITY`,
`tankLevelPercent = tankLevelLiters / TANK_MAX_CAPACITY * 100` (in [0, 100]),
the start time 0 and every other field unchanged. For every state with the
pump off `stopPump` returns the state unchanged. -/
theorem stopPump_accounting (tStop : Nat) (s : State)
    (hrun : s.pumpState = true) (h0 : 0 < s.irrigationStartTime)
    (hle : s.irrigationStartTime ≤ millis tStop) :
    stopPump tStop s =
      { s with
        pumpPin := !RELAY_ACTIVE_STATE
        pumpState := false
        totalWaterUsed := s.totalWaterUsed +
          ((millis tStop : ℚ) - (s.irrigationStartTime : ℚ)) / 1000 * PUMP_FLOW_RATE
        dailyWaterUsed := s.dailyWaterUsed +
          ((millis tStop : ℚ) - (s.irrigationStartTime : ℚ)) / 1000 * PUMP_FLOW_RATE
        tankLevelLiters := constrain (s.tankLevelLiters -
          ((millis tStop : ℚ) - (s.irrigationStartTime : ℚ)) / 1000 * PUMP_FLOW_RATE)
          0 TANK_MAX_CAPACITY
        tankLevelPercent := (stopPump tStop s).tankLevelLiters / TANK_MAX_CAPACITY * 100
        irrigationStartTime := 0 } ∧
    (0 ≤ (stopPump tStop s).tankLevelLiters ∧
      (stopPump tStop s).tankLevelLiters ≤ TANK_MAX_CAPACITY) ∧
    (0 ≤ (stopPump tStop s).tankLevelPercent ∧ (stopPump tStop s).tankLevelPercent ≤ 100) ∧
    (∀ (t : Nat) (x : State), x.pumpState = false → stopPump t x = x) := by
  have hm : millis tStop < ULONG_RANGE := Nat.mod_lt _ (by norm_num [ULONG_RANGE])
  have hu : usub (millis tStop) s.irrigationStartTime = millis tStop - s.irrigationStartTime := by
    unfold usub
    unfold ULONG_RANGE at hm ⊢
    omega
  have hq : ((usub (millis tStop) s.irrigationStartTime : ℕ) : ℚ) =
      (millis tStop : ℚ) - (s.irrigationStartTime : ℚ) := by
    rw [hu, Nat.cast_sub hle]
  have hrunning := stopPump_running tStop s hrun h0
  rw [hq] at hrunning
  have hmem := constrain_mem (s.tankLevelLiters -
      ((millis tStop : ℚ) - (s.irrigationStartTime : ℚ)) / 1000 * PUMP_FLOW_RATE)
      0 TANK_MAX_CAPACITY (by norm_num [TANK_MAX_CAPACITY])
  refine ⟨?_, ?_, ?_, fun t x hx => stopPump_off t x hx⟩
  · nth_rewrite 1 [hrunning]
    rw [hrunning]
  · rw [hrunning]
    exact hmem
  · rw [hrunning]
    obtain ⟨ha, hb⟩ := hmem
    norm_num [TANK_MAX_CAPACITY] at ha hb ⊢
    constructor <;> linarith

/-- C17 for a session started at `millis() = 100000` with 0.4 L in the tank and
stopped 2 s later: 0.3334 L are accounted for. -/
theorem stopPump_accounting_witness :
    runningInput.pumpState = true ∧ 0 < runningInput.irrigationStartTime ∧
    runningInput.irrigationStartTime ≤ millis 102000 ∧
    (stopPump 102000 runningInput).tankLevelLiters ≤ TANK_MAX_CAPACITY ∧
    (stopPump 102000 runningInput).totalWaterUsed = 0.3334 := by
  have h0 : 0 < runningInput.irrigationStartTime := by
    norm_num [runningInput, initialState]
  have hle : runningInput.irrigationStartTime ≤ millis 102000 := by
    norm_num [runningInput, initialState, millis, ULONG_RANGE]
  refine ⟨rfl, h0, hle, (stopPump_accounting 102000 runningInput rfl h0 hle).2.1.2, ?_⟩
  rw [(stopPump_accounting 102000 runningInput rfl h0 hle).1]
  norm_num [runningInput, initialState, millis, ULONG_RANGE, PUMP_FLOW_RATE]

theorem sendAlert_counters (c : AlertClock) (title message : String) (s : State) :
    (sendAlert c title message s).totalWaterUsed = s.totalWaterUsed ∧
    (sendAlert c title message s).dailyWaterUsed = s.dailyWaterUsed := by
  rw [sendAlert_frame]
  exact ⟨rfl, rfl⟩

theorem startPump_counters (tStart : Nat) (c : AlertClock) (duration : Nat) (s : State) :
    (startPump tStart c duration s).totalWaterUsed = s.totalWaterUsed ∧
    (startPump tStart c duration s).dailyWaterUsed = s.dailyWaterUsed := by
  unfold startPump
  by_cases h : s.tankLevelLiters < 0.10 * TANK_MAX_CAPACITY
  · rw [if_pos h]
    exact sendAlert_counters _ _ _ _
  · rw [if_neg h]
    exact ⟨rfl, rfl⟩

theorem ai_water_budgeting_counters (c : AlertClock) (s : State) :
    (ai_water_budgeting c s).totalWaterUsed = s.totalWaterUsed ∧
    (ai_water_budgeting c s).dailyWaterUsed = s.dailyWaterUsed := by
  have hd : (ai_water_budgeting_deficit s).totalWaterUsed = s.totalWaterUsed ∧
      (ai_water_budgeting_deficit s).dailyWaterUsed = s.dailyWaterUsed := by
    unfold ai_water_budgeting_deficit
    simp only
    split_ifs <;> exact ⟨rfl, rfl⟩
  have hr : ∀ x : State,
      (ai_water_budgeting_rain c x).totalWaterUsed = x.totalWaterUsed ∧
      (ai_water_budgeting_rain c x).dailyWaterUsed = x.dailyWaterUsed := by
    intro x
    unfold ai_water_budgeting_rain
    split_ifs
    · rw [sendAlert_frame]; exact ⟨rfl, rfl⟩
    · rw [sendAlert_frame]; exact ⟨rfl, rfl⟩
    · exact ⟨rfl, rfl⟩
  have h2 := hr (ai_water_budgeting_deficit s)
  unfold ai_water_budgeting
  simp only
  split_ifs
  · exact ⟨h2.1.trans hd.1, h2.2.trans hd.2⟩
  · exact ⟨h2.1.trans hd.1, h2.2.trans hd.2⟩

theorem updateHistoricalData_counters (tCheck tStamp : Nat) (s : State) :
    (updateHistoricalData tCheck tStamp s).totalWaterUsed = s.totalWaterUsed ∧
    (updateHistoricalData tCheck tStamp s).dailyWaterUsed = s.dailyWaterUsed := by
  unfold updateHistoricalData
  split_ifs <;> exact ⟨rfl, rfl⟩

theorem controlIrrigation_counters (c : IrrigationClock) (s : State) :
    ((controlIrrigation c s).totalWaterUsed = s.totalWaterUsed ∧
      (controlIrrigation c s).dailyWaterUsed = s.dailyWaterUsed) ∨
    ((controlIrrigation c s).totalWaterUsed = (stopPump c.tStop s).totalWaterUsed ∧
      (controlIrrigation c s).dailyWaterUsed = (stopPump c.tStop s).dailyWaterUsed) := by
  unfold controlIrrigation
  by_cases h1 : s.pumpState = true ∧ s.tankLevelLiters < 0.05 * TANK_MAX_CAPACITY
  · rw [if_pos h1]
    right
    exact sendAlert_counters _ _ _ _
  · rw [if_neg h1]
    by_cases h2 : s.pumpState = true
    · rw [if_pos h2]
      dsimp only
      by_cases h3 : usub (millis c.tRun) s.irrigationStartTime ≥
          toULong (s.irrigationDurationS * 1000.0)
      · rw [if_pos h3]
        right
        exact sendAlert_counters _ _ _ _
      · rw [if_neg h3]
        left
        exact ⟨rfl, rfl⟩
    · rw [if_neg h2]
      by_cases h4 : (!s.autoMode) = true
      · rw [if_pos h4]
        left
        exact ⟨rfl, rfl⟩
      · rw [if_neg h4]
        by_cases h5 : s.irrigationDurationS > 0.0 ∧ (!s.pumpState) = true
        · rw [if_pos h5]
          dsimp only
          left
          exact ⟨(sendAlert_counters _ _ _ _).1.trans (startPump_counters _ _ _ _).1,
            (sendAlert_counters _ _ _ _).2.trans (startPump_counters _ _ _ _).2⟩
        · rw [if_neg h5]
          left
          exact ⟨rfl, rfl⟩

theorem checkAndResetDailyUsage_counters (wifiConnected : Bool) (d : Int) (s : State) :
    (checkAndResetDailyUsage wifiConnected d s).totalWaterUsed = s.totalWaterUsed ∧
    ((checkAndResetDailyUsage wifiConnected d s).dailyWaterUsed = s.dailyWaterUsed ∨
      (s.lastDay ≠ -1 ∧ d ≠ s.lastDay ∧
        (checkAndResetDailyUsage wifiConnected d s).dailyWaterUsed = 0)) := by
  unfold checkAndResetDailyUsage
  split_ifs with h1 h2 h3
  · exact ⟨rfl, Or.inl rfl⟩
  · refine ⟨rfl, Or.inr ⟨h3, ?_, by norm_num⟩⟩
    rcases h2 with h | h
    · exact absurd h h3
    · exact h
  · exact ⟨rfl, Or.inl rfl⟩
  · exact ⟨rfl, Or.inl rfl⟩

/-- C18. For every state and all clock readings: `startPump`, `sendAlert`,
`ai_water_budgeting` and `updateHistoricalData` leave `totalWaterUsed` and
`dailyWaterUsed` unchanged; `stopPump` decreases neither;
`controlIrrigation` leaves both unchanged or as its `stopPump` call leaves
them, and decreases neither; `checkAndResetDailyUsage` leaves
`totalWaterUsed` unchanged and leaves `dailyWaterUsed` unchanged unless
`lastDay` is set and differs from the observed day, in which case it becomes 0. -/
theorem usage_counters_monotone (s : State) (tStart tStop tCheck tStamp : Nat)
    (a : AlertClock) (c : IrrigationClock) (title message : String) (duration : Nat)
    (wifiConnected : Bool) (d : Int) :
    ((startPump tStart a duration s).totalWaterUsed = s.totalWaterUsed ∧
      (startPump tStart a duration s).dailyWaterUsed = s.dailyWaterUsed) ∧
    ((sendAlert a title message s).totalWaterUsed = s.totalWaterUsed ∧
      (sendAlert a title message s).dailyWaterUsed = s.dailyWaterUsed) ∧
    ((ai_water_budgeting a s).totalWaterUsed = s.totalWaterUsed ∧
      (ai_water_budgeting a s).dailyWaterUsed = s.dailyWaterUsed) ∧
    ((updateHistoricalData tCheck tStamp s).totalWaterUsed = s.totalWaterUsed ∧
      (updateHistoricalData tCheck tStamp s).dailyWaterUsed = s.dailyWaterUsed) ∧
    (s.totalWaterUsed ≤ (stopPump tStop s).totalWaterUsed ∧
      s.dailyWaterUsed ≤ (stopPump tStop s).dailyWaterUsed) ∧
    (((controlIrrigation c s).totalWaterUsed = s.totalWaterUsed ∧
        (controlIrrigation c s).dailyWaterUsed = s.dailyWaterUsed) ∨
      ((controlIrrigation c s).totalWaterUsed = (stopPump c.tStop s).totalWaterUsed ∧
        (controlIrrigation c s).dailyWaterUsed = (stopPump c.tStop s).dailyWaterUsed)) ∧
    (s.totalWaterUsed ≤ (controlIrrigation c s).totalWaterUsed ∧
      s.dailyWaterUsed ≤ (controlIrrigation c s).dailyWaterUsed) ∧
    ((checkAndResetDailyUsage wifiConnected d s).totalWaterUsed = s.totalWaterUsed ∧
      ((checkAndResetDailyUsage wifiConnected d s).dailyWaterUsed = s.dailyWaterUsed ∨
        (s.lastDay ≠ -1 ∧ d ≠ s.lastDay ∧
          (checkAndResetDailyUsage wifiConnected d s).dailyWaterUsed = 0))) := by
  have hstop := stopPump_counters_le c.tStop s
  have hci := controlIrrigation_counters c s
  refine ⟨startPump_counters _ _ _ _, sendAlert_counters _ _ _ _,
    ai_water_budgeting_counters _ _, updateHistoricalData_counters _ _ _,
    stopPump_counters_le _ _, hci, ?_, checkAndResetDailyUsage_counters _ _ _⟩
  rcases hci with ⟨h1, h2⟩ | ⟨h1, h2⟩
  · rw [h1, h2]; exact ⟨le_refl _, le_refl _⟩
  · rw [h1, h2]; exact hstop

/-! ## Predicted need and tank longevity -/

theorem deficit_predicted_eq (s : State) :
    (ai_water_budgeting_deficit s).predictedWaterNeedLiters =
      0.5 *
        (if s.temperature > 35 ∧ s.humidity < 40 then 1.25
          else if s.temperature < 20 ∨ s.humidity > 70 then 0.90 else 1.0) *
        (if s.farmerProfile.soilType = "Red" ∨ s.farmerProfile.soilType = "Sandy" then 1.15
          else 0.85) := by
  rw [ai_water_budgeting_deficit_frame]
  unfold ai_water_budgeting_deficit
  simp only
  norm_num
  split_ifs <;> norm_num

theorem ai_water_budgeting_predicted (c : AlertClock) (s : State) :
    (ai_water_budgeting c s).predictedWaterNeedLiters =
      (ai_water_budgeting_deficit s).predictedWaterNeedLiters ∧
    (ai_water_budgeting c s).tankLevelLiters = s.tankLevelLiters := by
  have hr : ∀ x : State,
      (ai_water_budgeting_rain c x).predictedWaterNeedLiters = x.predictedWaterNeedLiters := by
    intro x
    unfold ai_water_budgeting_rain
    split_ifs
    · rw [sendAlert_frame]
    · rw [sendAlert_frame]
    · rfl
  refine ⟨?_, (ai_water_budgeting_tank c s).1⟩
  unfold ai_water_budgeting
  simp only
  split_ifs <;> exact hr _

theorem deficit_predicted_ge (s : State) :
    0.3825 ≤ (ai_water_budgeting_deficit s).predictedWaterNeedLiters ∧
    (ai_water_budgeting_deficit s).predictedWaterNeedLiters ≤ 0.71875 := by
  rw [deficit_predicted_eq]
  split_ifs <;> norm_num

/-- C21. For every state, `ai_water_budgeting` sets `predictedWaterNeedLiters`
to `0.5 * evaporationFactor * soilFactor`, with the evaporation factor 1.25
if temperature > 35 and humidity < 40, else 0.90 if temperature < 20 or
humidity > 70, else 1.0, and the soil factor 1.15 for the soil types "Red"
and "Sandy" and 0.85 otherwise. Replacing the crop type and the land size by
any other values changes the base need but not `predictedWaterNeedLiters`. -/
theorem predicted_need_formula (c : AlertClock) (s : State) (cropType : String)
    (landSize : ℚ) :
    (ai_water_budgeting c s).predictedWaterNeedLiters =
      0.5 *
        (if s.temperature > 35 ∧ s.humidity < 40 then 1.25
          else if s.temperature < 20 ∨ s.humidity > 70 then 0.90 else 1.0) *
        (if s.farmerProfile.soilType = "Red" ∨ s.farmerProfile.soilType = "Sandy" then 1.15
          else 0.85) ∧
    (ai_water_budgeting c
      { s with farmerProfile :=
          { s.farmerProfile with cropType := cropType, landSize := landSize } }).predictedWaterNeedLiters
      = (ai_water_budgeting c s).predictedWaterNeedLiters ∧
    (cropNeed { s.farmerProfile with cropType := cropType, landSize := landSize }).1 =
      (if cropType = "Maize" then 25000 * landSize else 20000 * landSize) := by
  refine ⟨?_, ?_, ?_⟩
  · rw [(ai_water_budgeting_predicted c s).1, deficit_predicted_eq]
  · rw [(ai_water_budgeting_predicted c s).1, (ai_water_budgeting_predicted c _).1,
      deficit_predicted_eq, deficit_predicted_eq]
  · unfold cropNeed
    split_ifs <;> norm_num

/-! ## Automatic start and timed stop -/

theorem toULong_natCast (k : Nat) (hk : k < ULONG_RANGE) : toULong (k : ℚ) = k := by
  unfold toULong
  rw [Int.floor_natCast, Int.toNat_ofNat, Nat.mod_eq_of_lt hk]

theorem sendAlert_session_fields (c : AlertClock) (title message : String) (s : State) :
    (sendAlert c title message s).pumpState = s.pumpState ∧
    (sendAlert c title message s).irrigationStartTime = s.irrigationStartTime ∧
    (sendAlert c title message s).irrigationDurationS = s.irrigationDurationS := by
  rw [sendAlert_frame]
  exact ⟨rfl, rfl, rfl⟩

theorem startPump_started (tStart : Nat) (c : AlertClock) (duration : Nat) (s : State)
    (h : ¬ s.tankLevelLiters < 0.10 * TANK_MAX_CAPACITY) :
    startPump tStart c duration s =
      { s with
        pumpPin := RELAY_ACTIVE_STATE
        pumpState := true
        irrigationStartTime := millis tStart
        irrigationDurationS :=
          if duration > 0 then (duration : ℚ) / 1000 else MANUAL_IRRIGATION_DURATION_S } := by
  unfold startPump
  rw [if_neg h]
  norm_num

theorem controlIrrigation_off (c : IrrigationClock) (s : State) (hoff : s.pumpState = false) :
    controlIrrigation c s =
      if s.autoMode = true ∧ s.irrigationDurationS > 0 then
        sendAlert c.alert "üå± Irrigation Started (AI)"
          ("Running for " ++
            toString (truncToInt (startPump c.tStart c.startAlert
              (toULong (s.irrigationDurationS * 1000)) s).irrigationDurationS) ++
            "s. Soil: " ++
            toString (startPump c.tStart c.startAlert
              (toULong (s.irrigationDurationS * 1000)) s).soilMoisturePercent ++ "%")
          (startPump c.tStart c.startAlert (toULong (s.irrigationDurationS * 1000)) s)
      else s := by
  unfold controlIrrigation
  have h1 : ¬ (s.pumpState = true ∧ s.tankLevelLiters < 0.05 * TANK_MAX_CAPACITY) := by
    rw [hoff]; simp
  have h2 : ¬ (s.pumpState = true) := by rw [hoff]; simp
  rw [if_neg h1, if_neg h2]
  cases ha : s.autoMode
  · simp
  · simp only [Bool.not_true, Bool.false_eq_true, if_false, hoff, Bool.not_false, and_true,
      true_and]
    norm_num

/-- C22. For every state with the pump off, `controlIrrigation` ends with the
pump running if and only if `autoMode` is on, `irrigationDurationS > 0` and
`tankLevelLiters ≥ 0.10 * TANK_MAX_CAPACITY`. When it starts, the start time
is the `millis()` reading of `startPump`, and the planned duration equals the
decision duration whenever that is a whole number of milliseconds within the
range of `unsigned long`. When `autoMode` is off the state is returned
unchanged. -/
theorem auto_start_iff (c : IrrigationClock) (s : State) (hoff : s.pumpState = false) :
    ((controlIrrigation c s).pumpState = true ↔
      s.autoMode = true ∧ 0 < s.irrigationDurationS ∧
        0.10 * TANK_MAX_CAPACITY ≤ s.tankLevelLiters) ∧
    ((controlIrrigation c s).pumpState = true →
      (controlIrrigation c s).irrigationStartTime = millis c.tStart ∧
      ∀ k : Nat, s.irrigationDurationS * 1000 = (k : ℚ) → k < ULONG_RANGE →
        (controlIrrigation c s).irrigationDurationS = s.irrigationDurationS) ∧
    (s.autoMode = false → controlIrrigation c s = s) := by
  have hci := controlIrrigation_off c s hoff
  have key : (controlIrrigation c s).pumpState = true →
      s.autoMode = true ∧ 0 < s.irrigationDurationS ∧
        0.10 * TANK_MAX_CAPACITY ≤ s.tankLevelLiters := by
    intro hp
    by_cases ha : s.autoMode = true ∧ s.irrigationDurationS > 0
    · refine ⟨ha.1, ha.2, ?_⟩
      by_contra hlow
      rw [hci, if_pos ha, (sendAlert_session_fields _ _ _ _).1] at hp
      unfold startPump at hp
      rw [if_pos (not_le.mp hlow), (sendAlert_session_fields _ _ _ _).1, hoff] at hp
      exact Bool.noConfusion hp
    · rw [hci, if_neg ha, hoff] at hp
      exact Bool.noConfusion hp
  have started : s.autoMode = true ∧ 0 < s.irrigationDurationS ∧
        0.10 * TANK_MAX_CAPACITY ≤ s.tankLevelLiters →
      (controlIrrigation c s).pumpState = true ∧
      (controlIrrigation c s).irrigationStartTime = millis c.tStart ∧
      (controlIrrigation c s).irrigationDurationS =
        (if toULong (s.irrigationDurationS * 1000) > 0 then
          (toULong (s.irrigationDurationS * 1000) : ℚ) / 1000
        else MANUAL_IRRIGATION_DURATION_S) := by
    rintro ⟨ha, hd, ht⟩
    obtain ⟨e1, e2, e3⟩ := sendAlert_session_fields c.alert "üå± Irrigation Started (AI)"
      ("Running for " ++
        toString (truncToInt (startPump c.tStart c.startAlert
          (toULong (s.irrigationDurationS * 1000)) s).irrigationDurationS) ++
        "s. Soil: " ++
        toString (startPump c.tStart c.startAlert
          (toULong (s.irrigationDurationS * 1000)) s).soilMoisturePercent ++ "%")
      (startPump c.tStart c.startAlert (toULong (s.irrigationDurationS * 1000)) s)
    rw [hci, if_pos ⟨ha, hd⟩, e1, e2, e3,
      startPump_started _ _ _ _ (not_lt.mpr ht)]
    exact ⟨rfl, rfl, rfl⟩
  refine ⟨⟨key, fun h => (started h).1⟩, ?_, ?_⟩
  · intro hp
    obtain ⟨-, h2, h3⟩ := started (key hp)
    refine ⟨h2, ?_⟩
    intro k hk hlt
    have hd := (key hp).2.1
    have hkpos : 0 < k := by
      have : (0 : ℚ) < (k : ℚ) := by rw [← hk]; linarith
      exact_mod_cast this
    rw [h3, hk, toULong_natCast k hlt, if_pos hkpos, ← hk]
    ring
  · intro ha
    rw [hci, if_neg (by rw [ha]; simp)]

/-- C22 for a state with the pump off, auto mode on, 0.4 L in the tank and a
decision duration of 5 s (5000 ms): the pump runs afterwards with planned
duration 5 s. -/
theorem auto_start_iff_witness :
    autoStartInput.pumpState = false ∧
    (controlIrrigation ⟨52000, 52001, 52002, ⟨52003, 52004⟩, ⟨52005, 52006⟩⟩
      autoStartInput).pumpState = true ∧
    (controlIrrigation ⟨52000, 52001, 52002, ⟨52003, 52004⟩, ⟨52005, 52006⟩⟩
      autoStartInput).irrigationDurationS = autoStartInput.irrigationDurationS := by
  have h := auto_start_iff ⟨52000, 52001, 52002, ⟨52003, 52004⟩, ⟨52005, 52006⟩⟩
    autoStartInput rfl
  have hp := h.1.mpr ⟨rfl, by norm_num [autoStartInput, drySoilInput, initialState],
    by norm_num [autoStartInput, drySoilInput, initialState, TANK_MAX_CAPACITY]⟩
  exact ⟨rfl, hp, (h.2.1 hp).2 5000
    (by norm_num [autoStartInput, drySoilInput, initialState])
    (by norm_num [ULONG_RANGE])⟩

theorem controlIrrigation_running (c : IrrigationClock) (s : State)
    (hrun : s.pumpState = true) (htank : 0.05 * TANK_MAX_CAPACITY ≤ s.tankLevelLiters) :
    controlIrrigation c s =
      if toULong (s.irrigationDurationS * 1000) ≤ usub (millis c.tRun) s.irrigationStartTime
      then
        sendAlert c.alert "‚èπ Irrigation Stopped (Time)" "Duration complete."
          (stopPump c.tStop s)
      else s := by
  unfold controlIrrigation
  have h1 : ¬ (s.pumpState = true ∧ s.tankLevelLiters < 0.05 * TANK_MAX_CAPACITY) :=
    fun h => absurd h.2 (not_lt.mpr htank)
  rw [if_neg h1, if_pos hrun]
  norm_num

theorem controlIrrigation_timed_stop (c : IrrigationClock) (s : State)
    (hrun : s.pumpState = true) (htank : 0.05 * TANK_MAX_CAPACITY ≤ s.tankLevelLiters) :
    ((controlIrrigation c s).pumpState = false ↔
      toULong (s.irrigationDurationS * 1000) ≤ usub (millis c.tRun) s.irrigationStartTime) ∧
    (toULong (s.irrigationDurationS * 1000) ≤ usub (millis c.tRun) s.irrigationStartTime →
      controlIrrigation c s =
        sendAlert c.alert "‚èπ Irrigation Stopped (Time)" "Duration complete."
          (stopPump c.tStop s)) ∧
    (usub (millis c.tRun) s.irrigationStartTime < toULong (s.irrigationDurationS * 1000) →
      controlIrrigation c s = s) := by
  have hci := controlIrrigation_running c s hrun htank
  refine ⟨⟨?_, ?_⟩, ?_, ?_⟩
  · intro hp
    by_contra hlt
    rw [hci, if_neg hlt, hrun] at hp
    exact Bool.noConfusion hp
  · intro hle
    rw [hci, if_pos hle, (sendAlert_session_fields _ _ _ _).1]
    exact stopPump_pumpState _ _
  · intro hle
    rw [hci, if_pos hle]
  · intro hlt
    rw [hci, if_neg (not_le.mpr hlt)]

/-- C23. For every running state with
`tankLevelLiters ≥ 0.05 * TANK_MAX_CAPACITY` whose planned duration is a whole
number of milliseconds (as every duration the sketch stores is: 0 s, 2.5 s,
5 s, 3600 s or `duration / 1000`), `controlIrrigation` stops the pump if and
only if the elapsed run time is at least the planned duration. When it
stops, the result is `stopPump` (which flushes the usage) followed by the
duration-complete `sendAlert`; when the elapsed time is below the planned
duration the whole state is returned unchanged, the pump still running. -/
theorem timed_stop_iff (c : IrrigationClock) (s : State) (k : Nat)
    (hrun : s.pumpState = true) (htank : 0.05 * TANK_MAX_CAPACITY ≤ s.tankLevelLiters)
    (hk : s.irrigationDurationS * 1000 = (k : ℚ)) (hlt : k < ULONG_RANGE) :
    ((controlIrrigation c s).pumpState = false ↔
      s.irrigationDurationS ≤ (usub (millis c.tRun) s.irrigationStartTime : ℚ) / 1000) ∧
    (s.irrigationDurationS ≤ (usub (millis c.tRun) s.irrigationStartTime : ℚ) / 1000 →
      controlIrrigation c s =
        sendAlert c.alert "‚èπ Irrigation Stopped (Time)" "Duration complete."
          (stopPump c.tStop s)) ∧
    ((usub (millis c.tRun) s.irrigationStartTime : ℚ) / 1000 < s.irrigationDurationS →
      controlIrrigation c s = s ∧ (controlIrrigation c s).pumpState = true) := by
  obtain ⟨h1, h2, h3⟩ := controlIrrigation_timed_stop c s hrun htank
  have hconv : toULong (s.irrigationDurationS * 1000) ≤
        usub (millis c.tRun) s.irrigationStartTime ↔
      s.irrigationDurationS ≤ (usub (millis c.tRun) s.irrigationStartTime : ℚ) / 1000 := by
    rw [hk, toULong_natCast k hlt, le_div_iff₀ (by norm_num), hk]
    exact Nat.cast_le.symm
  refine ⟨h1.trans hconv, fun h => h2 (hconv.mpr h), ?_⟩
  intro h
  have hlt2 : usub (millis c.tRun) s.irrigationStartTime <
      toULong (s.irrigationDurationS * 1000) := by
    by_contra hge
    exact absurd (hconv.mp (not_lt.mp hge)) (not_le.mpr h)
  have e := h3 hlt2
  rw [e]
  exact ⟨rfl, hrun⟩

/-- C23 for a session started at `millis() = 100000` with planned duration 5 s
(5000 ms): evaluated at `millis() = 102000` the state is unchanged, evaluated
at `millis() = 105000` the pump is stopped. -/
theorem timed_stop_iff_witness :
    runningInput.pumpState = true ∧
    0.05 * TANK_MAX_CAPACITY ≤ runningInput.tankLevelLiters ∧
    runningInput.irrigationDurationS * 1000 = ((5000 : Nat) : ℚ) ∧ 5000 < ULONG_RANGE ∧
    controlIrrigation ⟨102000, 102001, 102002, ⟨102003, 102004⟩, ⟨102005, 102006⟩⟩
      runningInput = runningInput ∧
    (controlIrrigation ⟨105000, 105001, 105002, ⟨105003, 105004⟩, ⟨105005, 105006⟩⟩
      runningInput).pumpState = false := by
  have ht : 0.05 * TANK_MAX_CAPACITY ≤ runningInput.tankLevelLiters := by
    norm_num [runningInput, initialState, TANK_MAX_CAPACITY]
  have hk : runningInput.irrigationDurationS * 1000 = ((5000 : Nat) : ℚ) := by
    norm_num [runningInput, initialState]
  have hr : (5000 : Nat) < ULONG_RANGE := by norm_num [ULONG_RANGE]
  refine ⟨rfl, ht, hk, hr,
    ((timed_stop_iff ⟨102000, 102001, 102002, ⟨102003, 102004⟩, ⟨102005, 102006⟩⟩
      runningInput 5000 rfl ht hk hr).2.2 ?_).1,
    (timed_stop_iff ⟨105000, 105001, 105002, ⟨105003, 105004⟩, ⟨105005, 105006⟩⟩
      runningInput 5000 rfl ht hk hr).1.mpr ?_⟩
  · norm_num [runningInput, initialState, usub, millis, ULONG_RANGE]
  · norm_num [runningInput, initialState, usub, millis, ULONG_RANGE]

/-- C27. `startPump` does not test `pumpState`. For every running state with
start time `t1 = irrigationStartTime` and
`tankLevelLiters ≥ 0.10 * TANK_MAX_CAPACITY`, a further `startPump` at a
`millis()` reading `t2 > t1` keeps the pump running, overwrites the start time
with `t2` and the planned duration with the new one, and leaves the counters
and the tank level unchanged; a following `stopPump` at `t3 ≥ t2` adds
`(t3 - t2) / 1000 * PUMP_FLOW_RATE` to `totalWaterUsed` and `dailyWaterUsed`
and subtracts it from the tank level, which is less than the
`(t3 - t1) / 1000 * PUMP_FLOW_RATE` pumped since `t1`. -/
theorem restart_loses_usage (t2 t3 : Nat) (c : AlertClock) (duration : Nat) (s : State)
    (_hrun : s.pumpState = true)
    (htank : 0.10 * TANK_MAX_CAPACITY ≤ s.tankLevelLiters)
    (h12 : s.irrigationStartTime < millis t2) (h23 : millis t2 ≤ millis t3) :
    ((startPump t2 c duration s).pumpState = true ∧
      (startPump t2 c duration s).irrigationStartTime = millis t2 ∧
      (startPump t2 c duration s).irrigationDurationS =
        (if duration > 0 then (duration : ℚ) / 1000 else 3600) ∧
      (startPump t2 c duration s).totalWaterUsed = s.totalWaterUsed ∧
      (startPump t2 c duration s).dailyWaterUsed = s.dailyWaterUsed ∧
      (startPump t2 c duration s).tankLevelLiters = s.tankLevelLiters) ∧
    ((stopPump t3 (startPump t2 c duration s)).totalWaterUsed =
        s.totalWaterUsed + ((millis t3 : ℚ) - (millis t2 : ℚ)) / 1000 * PUMP_FLOW_RATE ∧
      (stopPump t3 (startPump t2 c duration s)).dailyWaterUsed =
        s.dailyWaterUsed + ((millis t3 : ℚ) - (millis t2 : ℚ)) / 1000 * PUMP_FLOW_RATE ∧
      (stopPump t3 (startPump t2 c duration s)).tankLevelLiters =
        constrain (s.tankLevelLiters -
          ((millis t3 : ℚ) - (millis t2 : ℚ)) / 1000 * PUMP_FLOW_RATE) 0 TANK_MAX_CAPACITY) ∧
    ((stopPump t3 (startPump t2 c duration s)).totalWaterUsed <
        s.totalWaterUsed +
          ((millis t3 : ℚ) - (s.irrigationStartTime : ℚ)) / 1000 * PUMP_FLOW_RATE ∧
      (stopPump t3 (startPump t2 c duration s)).dailyWaterUsed <
        s.dailyWaterUsed +
          ((millis t3 : ℚ) - (s.irrigationStartTime : ℚ)) / 1000 * PUMP_FLOW_RATE) := by
  have hst := startPump_started t2 c duration s (not_lt.mpr htank)
  have hm : millis t3 < ULONG_RANGE := Nat.mod_lt _ (by norm_num [ULONG_RANGE])
  have hu : usub (millis t3) (millis t2) = millis t3 - millis t2 := by
    unfold usub
    unfold ULONG_RANGE at hm ⊢
    omega
  have hq : ((usub (millis t3) (millis t2) : ℕ) : ℚ) = (millis t3 : ℚ) - (millis t2 : ℚ) := by
    rw [hu, Nat.cast_sub h23]
  have e1 : (startPump t2 c duration s).irrigationStartTime = millis t2 := by rw [hst]
  have h2 : stopPump t3 (startPump t2 c duration s) = _ :=
    stopPump_running t3 (startPump t2 c duration s) (by rw [hst]) (by rw [e1]; omega)
  have e2 : (startPump t2 c duration s).totalWaterUsed = s.totalWaterUsed := by rw [hst]
  have e3 : (startPump t2 c duration s).dailyWaterUsed = s.dailyWaterUsed := by rw [hst]
  have e4 : (startPump t2 c duration s).tankLevelLiters = s.tankLevelLiters := by rw [hst]
  have e5 : (startPump t2 c duration s).irrigationDurationS =
      (if duration > 0 then (duration : ℚ) / 1000 else 3600) := by
    rw [hst]
    show (if duration > 0 then (duration : ℚ) / 1000 else MANUAL_IRRIGATION_DURATION_S) = _
    unfold MANUAL_IRRIGATION_DURATION_S
    rfl
  have t1 : (stopPump t3 (startPump t2 c duration s)).totalWaterUsed =
      s.totalWaterUsed + ((millis t3 : ℚ) - (millis t2 : ℚ)) / 1000 * PUMP_FLOW_RATE := by
    rw [h2]
    show (startPump t2 c duration s).totalWaterUsed +
      ((usub (millis t3) (startPump t2 c duration s).irrigationStartTime : ℕ) : ℚ) / 1000 *
        PUMP_FLOW_RATE = _
    rw [e1, e2, hq]
  have d1 : (stopPump t3 (startPump t2 c duration s)).dailyWaterUsed =
      s.dailyWaterUsed + ((millis t3 : ℚ) - (millis t2 : ℚ)) / 1000 * PUMP_FLOW_RATE := by
    rw [h2]
    show (startPump t2 c duration s).dailyWaterUsed +
      ((usub (millis t3) (startPump t2 c duration s).irrigationStartTime : ℕ) : ℚ) / 1000 *
        PUMP_FLOW_RATE = _
    rw [e1, e3, hq]
  have l1 : (stopPump t3 (startPump t2 c duration s)).tankLevelLiters =
      constrain (s.tankLevelLiters -
        ((millis t3 : ℚ) - (millis t2 : ℚ)) / 1000 * PUMP_FLOW_RATE) 0 TANK_MAX_CAPACITY := by
    rw [h2]
    show constrain ((startPump t2 c duration s).tankLevelLiters -
      ((usub (millis t3) (startPump t2 c duration s).irrigationStartTime : ℕ) : ℚ) / 1000 *
        PUMP_FLOW_RATE) 0 TANK_MAX_CAPACITY = _
    rw [e1, e4, hq]
  have hlt : ((millis t3 : ℚ) - (millis t2 : ℚ)) / 1000 * PUMP_FLOW_RATE <
      ((millis t3 : ℚ) - (s.irrigationStartTime : ℚ)) / 1000 * PUMP_FLOW_RATE := by
    have hc : (s.irrigationStartTime : ℚ) < (millis t2 : ℚ) := by exact_mod_cast h12
    have hr : (0 : ℚ) < PUMP_FLOW_RATE := by norm_num [PUMP_FLOW_RATE]
    apply mul_lt_mul_of_pos_right _ hr
    linarith
  refine ⟨⟨by rw [hst], e1, e5, e2, e3, e4⟩, ⟨t1, d1, l1⟩, ?_, ?_⟩
  · rw [t1]; linarith
  · rw [d1]; linarith

/-- C27 for a session started at `millis() = 100000`, started again at 130000
and stopped at 132000: only 2 s of the 32 s are accounted for. -/
theorem restart_loses_usage_witness :
    runningInput.pumpState = true ∧
    0.10 * TANK_MAX_CAPACITY ≤ runningInput.tankLevelLiters ∧
    runningInput.irrigationStartTime < millis 130000 ∧ millis 130000 ≤ millis 132000 ∧
    (stopPump 132000 (startPump 130000 ⟨130000, 130000⟩ 0 runningInput)).totalWaterUsed =
      runningInput.totalWaterUsed +
        ((millis 132000 : ℚ) - (millis 130000 : ℚ)) / 1000 * PUMP_FLOW_RATE := by
  have ht : 0.10 * TANK_MAX_CAPACITY ≤ runningInput.tankLevelLiters := by
    norm_num [runningInput, initialState, TANK_MAX_CAPACITY]
  have h12 : runningInput.irrigationStartTime < millis 130000 := by
    norm_num [runningInput, initialState, millis, ULONG_RANGE]
  have h23 : millis 130000 ≤ millis 132000 := by
    norm_num [millis, ULONG_RANGE]
  exact ⟨rfl, ht, h12, h23,
    (restart_loses_usage 130000 132000 ⟨130000, 130000⟩ 0 runningInput rfl ht h12 h23).2.1.1⟩

/-! ## Reachable durations, tank longevity and boot alerts -/

theorem ai_water_budgeting_duration_eq (c : AlertClock) (s : State) :
    (ai_water_budgeting c s).irrigationDurationS =
      if s.rain1h_mm > 0.5 ∨ s.rainProb_percent > 75 then
        (if s.soilMoisturePercent < 45 ∧ (ai_water_budgeting_deficit s).irrigationDurationS > 0
          then (ai_water_budgeting_deficit s).irrigationDurationS / 2 else 0)
      else (ai_water_budgeting_deficit s).irrigationDurationS := by
  have hf := ai_water_budgeting_deficit_frame s
  have hr1 : (ai_water_budgeting_deficit s).rain1h_mm = s.rain1h_mm := by rw [hf]
  have hr2 : (ai_water_budgeting_deficit s).rainProb_percent = s.rainProb_percent := by rw [hf]
  have hsoil : (ai_water_budgeting_deficit s).soilMoisturePercent = s.soilMoisturePercent := by
    rw [hf]
  rw [ai_water_budgeting_irrigationDurationS, ai_water_budgeting_rain_duration, hr1, hr2, hsoil]

theorem deficit_duration_in_range (s : State)
    (h0 : 0 ≤ s.soilMoisturePercent) :
    ((50 : ℚ) - (s.soilMoisturePercent : ℚ)) * 0.01 / PUMP_FLOW_RATE < 5 ∧
    (ai_water_budgeting_deficit s).irrigationDurationS =
      if s.soilMoisturePercent < 45 then 5 else 0 := by
  have hs : (0 : ℚ) ≤ (s.soilMoisturePercent : ℚ) := by exact_mod_cast h0
  have hlt : ((50 : ℚ) - (s.soilMoisturePercent : ℚ)) * 0.01 / PUMP_FLOW_RATE < 5 := by
    norm_num [PUMP_FLOW_RATE]
    rw [div_lt_iff₀ (by norm_num)]
    linarith
  refine ⟨hlt, ?_⟩
  rw [deficit_duration_eq]
  by_cases h45 : s.soilMoisturePercent < 45
  · have hq : (s.soilMoisturePercent : ℚ) < 45 := by exact_mod_cast h45
    rw [if_pos (by linarith), if_pos h45]
    unfold constrain
    rw [if_pos hlt]
  · have hq : (45 : ℚ) ≤ (s.soilMoisturePercent : ℚ) := by exact_mod_cast not_lt.mp h45
    rw [if_neg (by linarith), if_neg h45]

/-- C24. For every soil reading in 0..100 and every forecast: the
deficit-derived time `deficit * 0.01 / 0.1667` is below 5 s, so the duration
computed from the deficit is 5 s when soil < 45 and 0 s otherwise, and the
duration `ai_water_budgeting` leaves is 0 s, 2.5 s or 5 s, below the upper
bound 60 s. Each of the three values occurs. -/
theorem duration_three_values (c : AlertClock) (s : State)
    (h0 : 0 ≤ s.soilMoisturePercent) (_h100 : s.soilMoisturePercent ≤ 100) :
    ((50 : ℚ) - (s.soilMoisturePercent : ℚ)) * 0.01 / PUMP_FLOW_RATE < 5 ∧
    (ai_water_budgeting_deficit s).irrigationDurationS =
      (if s.soilMoisturePercent < 45 then 5 else 0) ∧
    ((ai_water_budgeting c s).irrigationDurationS = 0 ∨
      (ai_water_budgeting c s).irrigationDurationS = 5 / 2 ∨
      (ai_water_budgeting c s).irrigationDurationS = 5) ∧
    (ai_water_budgeting c s).irrigationDurationS < 60 ∧
    ((ai_water_budgeting ⟨0, 0⟩ manualRunReady).irrigationDurationS = 0 ∧
      (ai_water_budgeting ⟨0, 0⟩ rainHalvedInput).irrigationDurationS = 5 / 2 ∧
      (ai_water_budgeting ⟨0, 0⟩ drySoilInput).irrigationDurationS = 5) := by
  obtain ⟨hlt, hd⟩ := deficit_duration_in_range s h0
  have hfin : (ai_water_budgeting c s).irrigationDurationS = 0 ∨
      (ai_water_budgeting c s).irrigationDurationS = 5 / 2 ∨
      (ai_water_budgeting c s).irrigationDurationS = 5 := by
    rw [ai_water_budgeting_duration_eq, hd]
    split_ifs <;> norm_num
  have ex : ∀ x : State, 0 ≤ x.soilMoisturePercent →
      (ai_water_budgeting ⟨0, 0⟩ x).irrigationDurationS =
        if x.rain1h_mm > 0.5 ∨ x.rainProb_percent > 75 then
          (if x.soilMoisturePercent < 45 ∧ (if x.soilMoisturePercent < 45 then (5 : ℚ) else 0) > 0
            then (if x.soilMoisturePercent < 45 then (5 : ℚ) else 0) / 2 else 0)
        else (if x.soilMoisturePercent < 45 then 5 else 0) := by
    intro x hx
    rw [ai_water_budgeting_duration_eq, (deficit_duration_in_range x hx).2]
  refine ⟨hlt, hd, hfin, ?_, ?_, ?_, ?_⟩
  · rcases hfin with h | h | h <;> rw [h] <;> norm_num
  · rw [ex _ (by norm_num [manualRunReady, initialState])]
    norm_num [manualRunReady, initialState]
  · rw [ex _ (by norm_num [rainHalvedInput, initialState])]
    norm_num [rainHalvedInput, initialState]
  · rw [ex _ (by norm_num [drySoilInput, initialState])]
    norm_num [drySoilInput, initialState]

/-- C24 at soil 40 % with 1.0 mm of rain forecast: the duration is one of the
three values. -/
theorem duration_three_values_witness :
    0 ≤ rainHalvedInput.soilMoisturePercent ∧ rainHalvedInput.soilMoisturePercent ≤ 100 ∧
    ((ai_water_budgeting ⟨0, 0⟩ rainHalvedInput).irrigationDurationS = 0 ∨
      (ai_water_budgeting ⟨0, 0⟩ rainHalvedInput).irrigationDurationS = 5 / 2 ∨
      (ai_water_budgeting ⟨0, 0⟩ rainHalvedInput).irrigationDurationS = 5) := by
  have h0 : 0 ≤ rainHalvedInput.soilMoisturePercent := by
    norm_num [rainHalvedInput, initialState]
  have h100 : rainHalvedInput.soilMoisturePercent ≤ 100 := by
    norm_num [rainHalvedInput, initialState]
  exact ⟨h0, h100, (duration_three_values ⟨0, 0⟩ rainHalvedInput h0 h100).2.2.1⟩

theorem truncToInt_small (q : ℚ) (h0 : 0 ≤ q) (h2 : q < 2) :
    truncToInt q = 0 ∨ truncToInt q = 1 := by
  unfold truncToInt
  rw [if_pos h0]
  have a : (0 : Int) ≤ ⌊q⌋ := Int.floor_nonneg.mpr h0
  have b : ⌊q⌋ < 2 := Int.floor_lt.mpr (by exact_mod_cast h2)
  omega

theorem ai_water_budgeting_daysTankLasts (c : AlertClock) (s : State) :
    (ai_water_budgeting c s).daysTankLasts =
      truncToInt (s.tankLevelLiters / (ai_water_budgeting_deficit s).predictedWaterNeedLiters) := by
  have hr : ∀ x : State,
      (ai_water_budgeting_rain c x).predictedWaterNeedLiters = x.predictedWaterNeedLiters := by
    intro x
    unfold ai_water_budgeting_rain
    split_ifs
    · rw [sendAlert_frame]
    · rw [sendAlert_frame]
    · rfl
  have ht := (ai_water_budgeting_rain_tank c (ai_water_budgeting_deficit s)).1.trans
    (ai_water_budgeting_deficit_tank s).1
  have hge := (deficit_predicted_ge s).1
  have hpos : (ai_water_budgeting_rain c (ai_water_budgeting_deficit s)).predictedWaterNeedLiters
      > 0.001 := by
    rw [hr]
    norm_num at hge ⊢
    linarith
  unfold ai_water_budgeting
  dsimp only
  rw [if_pos hpos]
  show truncToInt ((ai_water_budgeting_rain c (ai_water_budgeting_deficit s)).tankLevelLiters /
    (ai_water_budgeting_rain c (ai_water_budgeting_deficit s)).predictedWaterNeedLiters) = _
  rw [ht, hr]

/-- C25. For every state the `predictedWaterNeedLiters` that `ai_water_budgeting`
sets is at least `0.5 * 0.90 * 0.85 = 0.3825`, above 0.001, so
`daysTankLasts` is the truncated quotient of `tankLevelLiters` by it and the
branch assigning the sentinel 999 is never taken; for every tank level in
`[0, TANK_MAX_CAPACITY]` the value is 0 or 1, hence not 999. -/
theorem tank_longevity_sentinel (c : AlertClock) (s : State)
    (h0 : 0 ≤ s.tankLevelLiters) (h1 : s.tankLevelLiters ≤ TANK_MAX_CAPACITY) :
    (0.5 * 0.90 * 0.85 : ℚ) = 0.3825 ∧
    0.3825 ≤ (ai_water_budgeting c s).predictedWaterNeedLiters ∧
    0.001 < (ai_water_budgeting c s).predictedWaterNeedLiters ∧
    (ai_water_budgeting c s).daysTankLasts =
      truncToInt (s.tankLevelLiters / (ai_water_budgeting c s).predictedWaterNeedLiters) ∧
    ((ai_water_budgeting c s).daysTankLasts = 0 ∨ (ai_water_budgeting c s).daysTankLasts = 1) ∧
    (ai_water_budgeting c s).daysTankLasts ≠ 999 := by
  have hp := (ai_water_budgeting_predicted c s).1
  have hge := (deficit_predicted_ge s).1
  have hd := ai_water_budgeting_daysTankLasts c s
  have hpos : (0 : ℚ) < (ai_water_budgeting_deficit s).predictedWaterNeedLiters := by
    norm_num at hge
    linarith
  have hq0 : 0 ≤ s.tankLevelLiters / (ai_water_budgeting_deficit s).predictedWaterNeedLiters :=
    div_nonneg h0 (le_of_lt hpos)
  have hq2 : s.tankLevelLiters / (ai_water_budgeting_deficit s).predictedWaterNeedLiters < 2 := by
    rw [div_lt_iff₀ hpos]
    norm_num [TANK_MAX_CAPACITY] at h1 hge
    linarith
  have h01 := truncToInt_small _ hq0 hq2
  rw [hp, hd]
  refine ⟨by norm_num, hge, ?_, rfl, h01, ?_⟩
  · norm_num at hge ⊢
    linarith
  · rcases h01 with h | h <;> rw [h] <;> norm_num

/-- C25 for a full nominal tank (0.5 L) at 15 °C on clay soil, where the
predicted need is the smallest possible, 0.3825 L: the estimate is 1 day. -/
theorem tank_longevity_sentinel_witness :
    0 ≤ coolClayInput.tankLevelLiters ∧ coolClayInput.tankLevelLiters ≤ TANK_MAX_CAPACITY ∧
    ((ai_water_budgeting ⟨0, 0⟩ coolClayInput).daysTankLasts = 0 ∨
      (ai_water_budgeting ⟨0, 0⟩ coolClayInput).daysTankLasts = 1) := by
  have h0 : 0 ≤ coolClayInput.tankLevelLiters := by norm_num [coolClayInput, initialState]
  have h1 : coolClayInput.tankLevelLiters ≤ TANK_MAX_CAPACITY := by
    norm_num [coolClayInput, initialState, TANK_MAX_CAPACITY]
  exact ⟨h0, h1, (tank_longevity_sentinel ⟨0, 0⟩ coolClayInput h0 h1).2.2.2.2.1⟩

/-- C26. From every state with `lastAlertTime = 0`, as after boot: a `sendAlert`
call whose throttle test is made at an uptime below 30 000 ms returns the
state unchanged; a call that is accepted has its throttle test at an uptime
of at least 30 000 ms; and a whole sequence of calls made below 30 000 ms
leaves the state unchanged, none of them accepted. -/
theorem boot_alerts_dropped (s : State) (calls : List AlertCall)
    (h0 : s.lastAlertTime = 0)
    (hearly : ∀ a ∈ calls, a.clock.tCheck < ALERT_THROTTLE_MS) :
    (∀ (c : AlertClock) (title message : String),
      c.tCheck < ALERT_THROTTLE_MS → sendAlert c title message s = s) ∧
    (∀ (c : AlertClock),
      ¬ usub (millis c.tCheck) s.lastAlertTime < ALERT_THROTTLE_MS →
        ALERT_THROTTLE_MS ≤ c.tCheck) ∧
    sendAlerts calls s = s ∧ acceptedAlerts calls s = [] := by
  have hthr : ∀ t : Nat, t < ALERT_THROTTLE_MS →
      usub (millis t) s.lastAlertTime < ALERT_THROTTLE_MS := by
    intro t ht
    rw [h0]
    unfold usub millis ULONG_RANGE
    unfold ALERT_THROTTLE_MS at ht ⊢
    omega
  refine ⟨fun c title message hc => sendAlert_of_throttled c title message s (hthr _ hc),
    ?_, ?_⟩
  · intro c hacc
    by_contra hlt
    exact hacc (hthr _ (not_le.mp hlt))
  · have hnone : acceptedAlerts calls s = [] := by
      induction calls with
      | nil => rfl
      | cons x rest ih =>
        rw [acceptedAlerts_cons_throttled x rest s (hthr _ (hearly x (List.mem_cons_self _ _)))]
        exact ih (fun a ha => hearly a (List.mem_cons_of_mem _ ha))
    exact ⟨sendAlerts_of_none_accepted calls s hnone, hnone⟩

/-- C26 for two alerts raised at uptimes 1 s and 29.999 s from the initial
state: `lastAlert` stays empty and the history is the initial one. -/
theorem boot_alerts_dropped_witness :
    initialState.lastAlertTime = 0 ∧
    (∀ a ∈ earlyAlertCalls, a.clock.tCheck < ALERT_THROTTLE_MS) ∧
    (sendAlerts earlyAlertCalls initialState).lastAlert = "" ∧
    (sendAlerts earlyAlertCalls initialState).alertHistory = initialAlertHistory ∧
    (sendAlerts earlyAlertCalls initialState).alertHistoryCount = 1 := by
  have he : ∀ a ∈ earlyAlertCalls, a.clock.tCheck < ALERT_THROTTLE_MS := by
    intro a ha
    simp only [earlyAlertCalls, List.mem_cons, List.mem_singleton, List.not_mem_nil,
      or_false] at ha
    rcases ha with rfl | rfl <;> norm_num [ALERT_THROTTLE_MS]
  rw [(boot_alerts_dropped initialState earlyAlertCalls rfl he).2.2.1]
  exact ⟨rfl, he, rfl, rfl, rfl⟩

end SRIS
